import Mathlib

/-!
# Verification of the gov-sim settlement engine (src/game.js, v3 variant)

A shallow embedding of the per-day simulation engine of `src/game.js`:
the deterministic RNG (`hashSeed` / `mulberry32` / `makeRng`), the
settlement state record, the workforce allocator (`validateWorkforce`),
the production / consumption / starvation / pressure / emigration phases,
the data-driven event table, the player actions, and the tick
orchestrator.

Modelling conventions:
* JS numbers that only ever hold integers (`pop`, worker slots, day,
  streak counters, policy timers, farms) are embedded as `Int` / `Nat`;
  all other numeric fields are embedded as `Rat`.  The source performs
  its arithmetic in IEEE-754 doubles; over the values the engine
  actually manipulates the operations coincide with exact rational
  arithmetic, except for the `r * 1e9` product inside `makeRng`'s
  cursor-advance, which we evaluate exactly over `Rat` rather than with
  double rounding (this can only perturb which hash value the cursor
  lands on, never determinism or any bound proved here).
* JS 32-bit operations (`>>> 0`, `|`, `^`, `Math.imul`, `>>>`) are
  embedded as `Nat` operations modulo `2 ^ 32`; the unsigned
  representative has the same bits as the signed one, so xor / or /
  shift / truncating multiply agree with the source.
* DOM rendering, `logLine`, and the interval timer are I/O glue with no
  effect on the settlement state and are not modelled.  `endGame`'s
  reported reason (a `logLine` string in the source) is recorded in an
  `endReason` field so that terminal causes are distinguishable.
-/

/-- `clamp(n, a, b)` from the source: `Math.max(a, Math.min(b, n))`. -/
def clamp (n a b : ℚ) : ℚ := max a (min b n)

/-- The same clamp, used by the source on integer quantities (`pop`). -/
def clampI (n a b : ℤ) : ℤ := max a (min b n)

/-! ## Seeded RNG: `hashSeed`, `mulberry32`, `makeRng` -/

/-- Base-10 digits of `n`, least significant first, with explicit fuel
(`n < 10 ^ fuel` is enough fuel). -/
def digitsAux : ℕ → ℕ → List ℕ
  | 0, _ => []
  | _ + 1, 0 => []
  | fuel + 1, n => n % 10 :: digitsAux fuel (n / 10)

/-- Character codes of `String(n)` for a natural number `n`, in order
(most significant digit first), as produced by JS `String(...)`. -/
def decimalCharCodes (n : ℕ) : List ℕ :=
  if n = 0 then [48] else ((digitsAux 32 n).reverse).map (fun d => d + 48)

/-- `hashSeed` from the source: FNV-1a over the character codes of the
decimal string of the number, with 32-bit truncating multiplies. -/
def hashSeed (n : ℕ) : ℕ :=
  (decimalCharCodes n).foldl (fun h c => ((h ^^^ c) * 16777619) % 2 ^ 32) 2166136261

/-- One step of `mulberry32`: from the current internal state `a`,
produce the new internal state and the 32-bit output word `t` (the
returned double is `t / 2^32`). -/
def mulberryStep (a : ℕ) : ℕ × ℕ :=
  let a' := (a + 0x6D2B79F5) % 2 ^ 32
  let t1 := ((a' ^^^ (a' >>> 15)) * (a' ||| 1)) % 2 ^ 32
  let t2 := (((t1 + ((t1 ^^^ (t1 >>> 7)) * (61 ||| t1)) % 2 ^ 32) % 2 ^ 32) ^^^ t1)
  let t3 := t2 ^^^ (t2 >>> 14)
  (a', t3)

/-- The RNG handle produced by `makeRng`: `a` is the `mulberry32`
closure state, `rs` mirrors `state.rngState`, which is re-hashed on
every draw. -/
structure Rng where
  a : ℕ
  rs : ℕ
deriving Repr, DecidableEq

/-- `makeRng()`: derive an RNG from the current `rngState`. -/
def rngInit (rngState : ℕ) : Rng := ⟨rngState, rngState⟩

/-- `rng.next()`: one `mulberry32` draw `r ∈ [0,1)` together with the
deterministic advance
`state.rngState = hashSeed((state.rngState ^ (r * 1e9)) >>> 0)`.
`r * 1e9 = t * 10^9 / 2^32` is truncated toward zero, i.e. `Nat`
division of `t * 10^9` by `2^32`. -/
def rngNext (r : Rng) : ℚ × Rng :=
  let a' := (mulberryStep r.a).1
  let t := (mulberryStep r.a).2
  ((t : ℚ) / 2 ^ 32, ⟨a', hashSeed (r.rs ^^^ (t * 1000000000 / 2 ^ 32))⟩)

/-- `rng.int(min, max) = Math.floor(next() * (max - min + 1)) + min`. -/
def rngInt (r : Rng) (lo hi : ℤ) : ℤ × Rng :=
  let x := (rngNext r).1
  (⌊x * ((hi : ℚ) - lo + 1)⌋ + lo, (rngNext r).2)

/-! ## Data model -/

/-- Time-control mode. -/
inductive Mode | auto | manual
deriving Repr, DecidableEq

/-- Keys of the declarative event table `EVENTS`. -/
inductive EventKey | TRADERS | THEFT | RIOT | COUP_WHISPERS
deriving Repr, DecidableEq

/-- The reason passed to `endGame` (reported through `logLine` in the
source). -/
inductive EndReason | popCollapse | abandoned | authorityCollapse | victory
deriving Repr, DecidableEq

/-- The settlement state record created by `INITIAL` and mutated by the
tick phases and player actions. -/
structure GameState where
  day : ℕ
  mode : Mode
  paused : Bool
  gameOver : Bool
  win : Bool
  seed : ℕ
  rngState : ℕ
  pop : ℤ
  food : ℚ
  wood : ℚ
  tools : ℚ
  mood : ℚ
  authority : ℚ
  pSubsistence : ℚ
  pSecurity : ℚ
  pExtraction : ℚ
  starveDays : ℕ
  depopStreak : ℕ
  workersFood : ℤ
  workersWood : ℤ
  workersTools : ℤ
  farms : ℕ
  rationing : ℕ
  feasting : ℕ
  activeEvent : Option EventKey
  endReason : Option EndReason
  tickSpeedMs : ℕ
deriving Repr, DecidableEq

/-! ## Config constants (the `CONFIG` table of the source; names whose
source spelling would clash with reserved suffixes are spelled with
`FRAC` / `MULT` instead of the source's ratio suffix). -/

namespace CONFIG

def DEFAULT_SEED : ℕ := 1337
def FOOD_PER_WORKER : ℚ := 1
def WOOD_PER_WORKER : ℚ := 0.8
def TOOLS_PER_WORKER : ℚ := 0.35
def FARM_WOOD_COST : ℚ := 30
def FARM_FOOD_MULT_PER_FARM : ℚ := 0.08
def TOOLS_SOFTCAP : ℚ := 100
def TOOLS_BONUS_PER_TOOL : ℚ := 0.002
def TOOLS_MIN_BONUS : ℚ := 1
def TOOLS_DECAY_FLAT : ℚ := 1
def TOOLS_DECAY_PER_POP : ℚ := 0.05
def FOOD_CONSUMPTION_PER_POP : ℚ := 1
def RATION_CONSUMPTION_MULT : ℚ := 0.75
def FEAST_CONSUMPTION_MULT : ℚ := 1.25
def RATION_DAYS : ℕ := 5
def FEAST_DAYS : ℕ := 3
def MOOD_MAX : ℚ := 100
def MOOD_MIN : ℚ := 0
def AUTH_MAX : ℚ := 100
def AUTH_MIN : ℚ := 0
def STARVATION_MOOD_LOSS_MULT : ℚ := 0.15
def STARVATION_MOOD_LOSS_MIN : ℚ := 2
def STARVATION_MOOD_LOSS_MAX : ℚ := 18
/-- `STARVATION_DEATH_DEFICIT_RATIO` in the source. -/
def STARVATION_DEATH_DEFICIT_FRAC : ℚ := 0.8
def STARVE_MOOD_MULT_PER_DAY : ℚ := 0.08
def STARVE_DEATH_MULT_PER_DAY : ℚ := 0.05
/-- `STARVE_DEATH_MAX_PER_DAY_RATIO` in the source. -/
def STARVE_DEATH_MAX_PER_DAY_FRAC : ℚ := 0.35
def PRESSURE_MAX : ℚ := 100
def PRESSURE_MIN : ℚ := 0
def P_DECAY_BASE : ℚ := 0.6
def P_SUBS_FROM_DEFICIT_MULT : ℚ := 0.55
def P_SUBS_STREAK_MULT : ℚ := 0.25
def P_SEC_FROM_LOW_MOOD_MULT : ℚ := 0.12
def P_SHOCK_FROM_DEATHS : ℚ := 0.6
def AUTH_BLEED_BASE : ℚ := 0.25
def AUTH_BLEED_PSUBS_MULT : ℚ := 0.045
def AUTH_BLEED_PSEC_MULT : ℚ := 0.04
def AUTH_BLEED_PEXTR_MULT : ℚ := 0.03
def AUTH_RECOVER_BASE : ℚ := 0.25
def AUTH_RECOVER_CAP : ℚ := 85
/-- `MOOD_RECOVER_IF_WELL_FED_RATIO` in the source. -/
def MOOD_RECOVER_IF_WELL_FED_MULT : ℚ := 3
def MOOD_DRIFT_UP : ℚ := 0.6
def MOOD_DRIFT_CAP : ℚ := 85
def MOOD_DRIFT_DOWN_IF_TOO_HIGH : ℚ := 0.2
def MOOD_TOO_HIGH : ℚ := 90
def MIGRATION_MIN_POP : ℤ := 6
def MIGRATION_TRIGGER_PSUBS : ℚ := 55
def MIGRATION_TRIGGER_PSEC : ℚ := 55
def MIGRATION_TRIGGER_MOOD : ℚ := 35
def MIGRATION_STREAK_START : ℕ := 3
def MIGRATION_PER_DAY_MIN : ℤ := 1
/-- `MIGRATION_PER_DAY_MAX_RATIO` in the source. -/
def MIGRATION_PER_DAY_MAX_FRAC : ℚ := 0.08
def MIGRATION_STREAK_MULT : ℚ := 0.12
def EVENT_BASE_CHANCE : ℚ := 0.05
def EVENT_LOW_MOOD_BONUS : ℚ := 0.10
def EVENT_HIGH_PSUBS_BONUS : ℚ := 0.12
def EVENT_HIGH_PSEC_BONUS : ℚ := 0.10
def EVENT_LOW_MOOD_THRESHOLD : ℚ := 35
def EVENT_HIGH_P_THRESHOLD : ℚ := 55
def WIN_DAY : ℕ := 50

end CONFIG

/-- `INITIAL(seed)`: the fresh settlement state. -/
def INITIAL (seed : ℕ) : GameState :=
  { day := 1
    mode := .auto
    paused := false
    gameOver := false
    win := false
    seed := hashSeed seed
    rngState := hashSeed seed
    pop := 30
    food := 80
    wood := 40
    tools := 10
    mood := 70
    authority := 70
    pSubsistence := 0
    pSecurity := 0
    pExtraction := 0
    starveDays := 0
    depopStreak := 0
    workersFood := 10
    workersWood := 5
    workersTools := 0
    farms := 0
    rationing := 0
    feasting := 0
    activeEvent := none
    endReason := none
    tickSpeedMs := 5000 }

/-! ## Core math (pure reads of state) -/

def farmBonusMult (s : GameState) : ℚ :=
  1 + (s.farms : ℚ) * CONFIG.FARM_FOOD_MULT_PER_FARM

def toolsBonusMult (s : GameState) : ℚ :=
  let effectiveTools := clamp s.tools 0 CONFIG.TOOLS_SOFTCAP
  max CONFIG.TOOLS_MIN_BONUS (1 + effectiveTools * CONFIG.TOOLS_BONUS_PER_TOOL)

def foodPerDay (s : GameState) : ℚ :=
  (s.workersFood : ℚ) * CONFIG.FOOD_PER_WORKER * farmBonusMult s * toolsBonusMult s

def woodPerDay (s : GameState) : ℚ :=
  (s.workersWood : ℚ) * CONFIG.WOOD_PER_WORKER * toolsBonusMult s

def toolsPerDay (s : GameState) : ℚ :=
  (s.workersTools : ℚ) * CONFIG.TOOLS_PER_WORKER

def toolsDecayPerDay (s : GameState) : ℚ :=
  CONFIG.TOOLS_DECAY_FLAT + (s.pop : ℚ) * CONFIG.TOOLS_DECAY_PER_POP

def foodConsumptionPerDay (s : GameState) : ℚ :=
  let c := (s.pop : ℚ) * CONFIG.FOOD_CONSUMPTION_PER_POP
  let c := if 0 < s.rationing then c * CONFIG.RATION_CONSUMPTION_MULT else c
  if 0 < s.feasting then c * CONFIG.FEAST_CONSUMPTION_MULT else c

/-! ## Workforce allocator (`validateWorkforce`) -/

/-- The three labor slots, in the source's `keys` order. -/
inductive SlotKey | food | wood | tools
deriving Repr, DecidableEq

def getSlot (s : GameState) : SlotKey → ℤ
  | .food => s.workersFood
  | .wood => s.workersWood
  | .tools => s.workersTools

def setSlot (s : GameState) : SlotKey → ℤ → GameState
  | .food, v => { s with workersFood := v }
  | .wood, v => { s with workersWood := v }
  | .tools, v => { s with workersTools := v }

/-- The source's `clampOrder`: the base key order with the priority key
spliced out and pushed to the back. -/
def clampOrder : Option SlotKey → List SlotKey
  | none => [.food, .wood, .tools]
  | some .food => [.wood, .tools, .food]
  | some .wood => [.food, .tools, .wood]
  | some .tools => [.food, .wood, .tools]

/-- The overage-removal loop of `validateWorkforce`. -/
def reduceOverflow : List SlotKey → ℤ → GameState → GameState
  | [], _, s => s
  | k :: ks, overflow, s =>
    if overflow ≤ 0 then s
    else
      let reducible := getSlot s k
      let d := min reducible overflow
      reduceOverflow ks (overflow - d) (setSlot s k (reducible - d))

/-- `validateWorkforce(priorityKey)`: clamp each slot into `[0, pop]`,
then remove any overflow, touching the priority slot last. -/
def validateWorkforce (priorityKey : Option SlotKey) (s : GameState) : GameState :=
  let s := { s with workersFood := clampI s.workersFood 0 s.pop
                    workersWood := clampI s.workersWood 0 s.pop
                    workersTools := clampI s.workersTools 0 s.pop }
  let total := s.workersFood + s.workersWood + s.workersTools
  if total ≤ s.pop then s
  else reduceOverflow (clampOrder priorityKey) (total - s.pop) s

/-! ## Presets (`applyPreset`) -/

inductive PresetKey | maxFood | maxWood | balanced | survival
deriving Repr, DecidableEq

/-- Preset split ratios `(food, wood, tools)` from `CONFIG.PRESETS`. -/
def presetRatios : PresetKey → ℚ × ℚ × ℚ
  | .maxFood => (1, 0, 0)
  | .maxWood => (0, 1, 0)
  | .balanced => (0.55, 0.3, 0.15)
  | .survival => (0.75, 0.2, 0.05)

/-- The `while (used < pop)` top-up loop of `applyPreset`, with fuel
(the loop adds one worker per inner step, so any fuel at least
`pop - used` reproduces it). -/
def presetFill : ℕ → ℤ → ℤ → ℤ → ℤ → ℤ → ℤ × ℤ × ℤ
  | 0, f, w, t, _, _ => (f, w, t)
  | fuel + 1, f, w, t, used, pop =>
    if used < pop then
      let f := f + 1
      let used := used + 1
      if pop ≤ used then (f, w, t)
      else
        let w := w + 1
        let used := used + 1
        if pop ≤ used then (f, w, t)
        else presetFill fuel f (w) (t + 1) (used + 1) pop
    else (f, w, t)

/-- The `while (used > pop)` trim loop of `applyPreset`, with fuel.
(The source loops forever if all slots are zero while `used > pop`,
which needs `pop < 0` and is unreachable; the fuel version stops.) -/
def presetTrim : ℕ → ℤ → ℤ → ℤ → ℤ → ℤ × ℤ × ℤ
  | 0, f, w, t, _ => (f, w, t)
  | fuel + 1, f, w, t, pop =>
    if pop < f + w + t then
      if 0 < t then presetTrim fuel f w (t - 1) pop
      else if 0 < w then presetTrim fuel f (w - 1) t pop
      else if 0 < f then presetTrim fuel (f - 1) w t pop
      else (f, w, t)
    else (f, w, t)

def applyPreset (name : PresetKey) (s : GameState) : GameState :=
  let pr := presetRatios name
  let f := max 0 ⌊(s.pop : ℚ) * pr.1⌋
  let w := max 0 ⌊(s.pop : ℚ) * pr.2.1⌋
  let t := max 0 ⌊(s.pop : ℚ) * pr.2.2⌋
  let used := f + w + t
  let q := presetFill ((s.pop - used).toNat + 1) f w t used s.pop
  let q2 := presetTrim ((q.1 + q.2.1 + q.2.2 - s.pop).toNat + 1) q.1 q.2.1 q.2.2 s.pop
  validateWorkforce none { s with workersFood := q2.1, workersWood := q2.2.1, workersTools := q2.2.2 }

/-! ## Costs and effects (`canAfford`, `payCost`, `applyEffects`) -/

/-- A JS effect/cost field: absent, or present with a value; a present
zero is falsy in the source's `if (effects.x)` tests, so it acts like
absent. -/
def effTruthy : Option ℚ → Bool
  | none => false
  | some v => v != 0

structure Cost where
  food : Option ℚ := none
  wood : Option ℚ := none
  tools : Option ℚ := none

def canAfford (c : Cost) (s : GameState) : Bool :=
  !(effTruthy c.food && decide (s.food < c.food.getD 0)) &&
  !(effTruthy c.wood && decide (s.wood < c.wood.getD 0)) &&
  !(effTruthy c.tools && decide (s.tools < c.tools.getD 0))

def payCost (c : Cost) (s : GameState) : GameState :=
  let s := if effTruthy c.food then { s with food := s.food - c.food.getD 0 } else s
  let s := if effTruthy c.wood then { s with wood := s.wood - c.wood.getD 0 } else s
  let s := if effTruthy c.tools then { s with tools := s.tools - c.tools.getD 0 } else s
  { s with food := clamp s.food 0 999999
           wood := clamp s.wood 0 999999
           tools := clamp s.tools 0 999999 }

structure Effects where
  food : Option ℚ := none
  wood : Option ℚ := none
  tools : Option ℚ := none
  mood : Option ℚ := none
  authority : Option ℚ := none
  pSubsistence : Option ℚ := none
  pSecurity : Option ℚ := none
  pExtraction : Option ℚ := none

def applyEffects (e : Effects) (s : GameState) : GameState :=
  let s := if effTruthy e.food then { s with food := s.food + e.food.getD 0 } else s
  let s := if effTruthy e.wood then { s with wood := s.wood + e.wood.getD 0 } else s
  let s := if effTruthy e.tools then { s with tools := s.tools + e.tools.getD 0 } else s
  let s := if effTruthy e.mood then
      { s with mood := clamp (s.mood + e.mood.getD 0) CONFIG.MOOD_MIN CONFIG.MOOD_MAX } else s
  let s := if effTruthy e.authority then
      { s with authority := clamp (s.authority + e.authority.getD 0) CONFIG.AUTH_MIN CONFIG.AUTH_MAX } else s
  let s := if effTruthy e.pSubsistence then
      { s with pSubsistence := clamp (s.pSubsistence + e.pSubsistence.getD 0) CONFIG.PRESSURE_MIN CONFIG.PRESSURE_MAX } else s
  let s := if effTruthy e.pSecurity then
      { s with pSecurity := clamp (s.pSecurity + e.pSecurity.getD 0) CONFIG.PRESSURE_MIN CONFIG.PRESSURE_MAX } else s
  if effTruthy e.pExtraction then
    { s with pExtraction := clamp (s.pExtraction + e.pExtraction.getD 0) CONFIG.PRESSURE_MIN CONFIG.PRESSURE_MAX } else s

/-! ## Event table (`EVENTS`) -/

/-- An event option: a guard (`can`) and an effect (`run`). -/
structure EvOption where
  can : GameState → Bool
  run : GameState → GameState

/-- The live weight function of each event. -/
def eventWeight (k : EventKey) (s : GameState) : ℚ :=
  match k with
  | .TRADERS => 1
  | .THEFT => if CONFIG.EVENT_HIGH_P_THRESHOLD ≤ s.pSubsistence then 1.2 else 0.6
  | .RIOT => if CONFIG.EVENT_HIGH_P_THRESHOLD ≤ s.pSecurity then 1.2 else 0.7
  | .COUP_WHISPERS =>
    let a := 1 + (50 - s.authority) * 0.03
    let p := 1 + (s.pSubsistence + s.pSecurity) * 0.004
    clamp (a * p) 0.2 2.2

/-- The ordered option list of each event (guards and effects
transcribed from the source's `EVENTS` table; `logLine` output is not
modelled). -/
def eventOptions (k : EventKey) : List EvOption :=
  match k with
  | .TRADERS =>
    [ { can := fun s => canAfford { wood := some 20 } s
        run := fun s =>
          applyEffects { food := some 35, mood := some 2, authority := some 1 }
            (payCost { wood := some 20 } s) },
      { can := fun _ => true
        run := fun s => applyEffects { mood := some (-1) } s } ]
  | .THEFT =>
    [ { can := fun _ => true
        run := fun s =>
          let rng := rngInit s.rngState
          let s := applyEffects { mood := some 4, authority := some 3, pSecurity := some (-6) } s
          let r := (rngNext rng).1
          let s := { s with rngState := (rngNext rng).2.rs }
          if r < 0.35 then
            applyEffects { mood := some (-2), authority := some (-2), pSubsistence := some 2 }
              { s with pop := clampI (s.pop - 1) 0 999999 }
          else s },
      { can := fun _ => true
        run := fun s =>
          applyEffects { authority := some (-6), mood := some (-2), food := some (-6), pSecurity := some 4 } s } ]
  | .RIOT =>
    [ { can := fun s => canAfford { food := some 25 } s
        run := fun s =>
          applyEffects { mood := some 10, authority := some 6, pSecurity := some (-10), pSubsistence := some (-6) }
            (payCost { food := some 25 } s) },
      { can := fun _ => true
        run := fun s =>
          let rng := rngInit s.rngState
          let s := applyEffects { mood := some 3, authority := some 4, pSecurity := some (-5) } s
          let r := (rngNext rng).1
          let rng2 := (rngNext rng).2
          let s := { s with rngState := rng2.rs }
          if r < 0.5 then
            let loss := (rngInt rng2 5 18).1
            let s := { s with rngState := (rngInt rng2 5 18).2.rs }
            let s := { s with wood := clamp (s.wood - (loss : ℚ)) 0 999999 }
            applyEffects { mood := some (-7), authority := some (-5), pSecurity := some 6 } s
          else s } ]
  | .COUP_WHISPERS =>
    [ { can := fun _ => true
        run := fun s =>
          applyEffects { mood := some 6, authority := some (-2), pExtraction := some 4 } s },
      { can := fun _ => true
        run := fun s =>
          applyEffects { authority := some 6, mood := some (-6), pSecurity := some 5 } s } ]

/-! ## Event trigger and resolution -/

def computeEventChance (s : GameState) : ℚ :=
  let chance := CONFIG.EVENT_BASE_CHANCE
  let chance := if s.mood < CONFIG.EVENT_LOW_MOOD_THRESHOLD then chance + CONFIG.EVENT_LOW_MOOD_BONUS else chance
  let chance := if CONFIG.EVENT_HIGH_P_THRESHOLD ≤ s.pSubsistence then chance + CONFIG.EVENT_HIGH_PSUBS_BONUS else chance
  let chance := if CONFIG.EVENT_HIGH_P_THRESHOLD ≤ s.pSecurity then chance + CONFIG.EVENT_HIGH_PSEC_BONUS else chance
  clamp chance 0 0.65

/-- The cumulative-weight walk of `pickWeightedEvent`. -/
def pickLoop : ℚ → List (EventKey × ℚ) → Option EventKey
  | _, [] => none
  | roll, (k, w) :: rest =>
    let roll := roll - w
    if roll ≤ 0 then some k else pickLoop roll rest

/-- `pickWeightedEvent(keys, rng)`: weighted random selection over the
pool's live weights, each clamped into `[0, 5]`; falls back to the last
key if the walk runs past the end. -/
def pickWeightedEvent (s : GameState) (keys : List EventKey) (rng : Rng) :
    Option EventKey × Rng :=
  let kws := keys.map fun k => (k, clamp (eventWeight k s) 0 5)
  let total := (kws.map Prod.snd).sum
  if total ≤ 0 then (none, rng)
  else
    let r := (rngNext rng).1
    ((pickLoop (r * total) kws).orElse (fun _ => keys.getLast?), (rngNext rng).2)

/-- `maybeTriggerEvent()`: one chance draw; on success build the
eligible pool and pick a pending event by weighted draw. -/
def maybeTriggerEvent (s : GameState) : GameState :=
  if s.activeEvent.isSome || s.gameOver then s
  else
    let rng := rngInit s.rngState
    let chance := computeEventChance s
    let r := (rngNext rng).1
    let rng1 := (rngNext rng).2
    let s := { s with rngState := rng1.rs }
    if chance < r then s
    else
      let pool := [EventKey.TRADERS]
        ++ (if CONFIG.EVENT_HIGH_P_THRESHOLD ≤ s.pSubsistence then [EventKey.THEFT] else [])
        ++ (if CONFIG.EVENT_HIGH_P_THRESHOLD ≤ s.pSecurity ∨ s.mood < CONFIG.EVENT_LOW_MOOD_THRESHOLD then [EventKey.RIOT] else [])
        ++ (if s.authority < 45 ∨ 110 < s.pSubsistence + s.pSecurity then [EventKey.COUP_WHISPERS] else [])
      let pk := pickWeightedEvent s pool rng1
      -- on this path `s.activeEvent` is already `none`, so assigning the
      -- picked key (or `none`) directly coincides with the source's two
      -- arms (assign on a pick, leave untouched otherwise)
      { s with rngState := pk.2.rs, activeEvent := pk.1 }

/-- `resolveEvent(optionIndex)`: a no-op unless an event is pending,
the index names an option, and its guard holds; otherwise run the
option's effect and clear the pending event. -/
def resolveEvent (s : GameState) (optionIndex : ℕ) : GameState :=
  match s.activeEvent with
  | none => s
  | some k =>
    match (eventOptions k)[optionIndex]? with
    | none => s
    | some opt => if opt.can s then { opt.run s with activeEvent := none } else s

/-! ## Player actions -/

def buildFarm (s : GameState) : GameState :=
  if s.wood < CONFIG.FARM_WOOD_COST then s
  else
    applyEffects { mood := some 2, authority := some 1, pSubsistence := some (-2) }
      { s with wood := s.wood - CONFIG.FARM_WOOD_COST, farms := s.farms + 1 }

def ration (s : GameState) : GameState :=
  applyEffects { mood := some (-6), authority := some 1, pSecurity := some 2 }
    { s with rationing := CONFIG.RATION_DAYS, feasting := 0 }

def feast (s : GameState) : GameState :=
  if s.food < 20 then s
  else
    applyEffects { mood := some 8, authority := some 2, pSubsistence := some (-3) }
      { s with feasting := CONFIG.FEAST_DAYS, rationing := 0, food := s.food - 10 }

/-! ## Tick phases and orchestrator -/

def phaseValidate (s : GameState) : GameState := validateWorkforce none s

def phasePolicyTimers (s : GameState) : GameState :=
  { s with rationing := if 0 < s.rationing then s.rationing - 1 else s.rationing
           feasting := if 0 < s.feasting then s.feasting - 1 else s.feasting }

def phaseProduction (s : GameState) : GameState :=
  { s with food := s.food + foodPerDay s
           wood := s.wood + woodPerDay s
           tools := s.tools + toolsPerDay s }

def phaseMaintenance (s : GameState) : GameState :=
  { s with tools := clamp (s.tools - toolsDecayPerDay s) 0 999999 }

/-- `phaseConsumption()`: returns the day's deficit together with the
new state (`food` is floored at 0). -/
def phaseConsumption (s : GameState) : ℚ × GameState :=
  let cons := foodConsumptionPerDay s
  (if s.food - cons < 0 then cons - s.food else 0,
   { s with food := if s.food - cons < 0 then 0 else s.food - cons })

/-- The `{ deaths, moodLoss }` record returned by `phaseStarvation`. -/
structure StarveOutcome where
  deaths : ℤ
  moodLoss : ℚ
deriving Repr, DecidableEq

def phaseStarvation (deficit : ℚ) (s : GameState) : GameState × StarveOutcome :=
  if deficit ≤ 0 then ({ s with starveDays := 0 }, ⟨0, 0⟩)
  else
    let streak := s.starveDays + 1
    let moodMult := 1 + (streak : ℚ) * CONFIG.STARVE_MOOD_MULT_PER_DAY
    let baseMoodLoss := clamp (deficit * CONFIG.STARVATION_MOOD_LOSS_MULT)
      CONFIG.STARVATION_MOOD_LOSS_MIN CONFIG.STARVATION_MOOD_LOSS_MAX
    let moodLoss := clamp (baseMoodLoss * moodMult)
      CONFIG.STARVATION_MOOD_LOSS_MIN CONFIG.STARVATION_MOOD_LOSS_MAX
    let unfed := ⌈deficit / CONFIG.FOOD_CONSUMPTION_PER_POP⌉
    let deathMult := 1 + (streak : ℚ) * CONFIG.STARVE_DEATH_MULT_PER_DAY
    let rawDeaths := ⌊(unfed : ℚ) * deathMult⌋
    let maxDeaths := max 1 ⌊(s.pop : ℚ) * CONFIG.STARVE_DEATH_MAX_PER_DAY_FRAC⌋
    let deaths := clampI rawDeaths 1 maxDeaths
    if (s.pop : ℚ) * CONFIG.STARVATION_DEATH_DEFICIT_FRAC < deficit then
      ({ s with starveDays := streak
                mood := clamp (s.mood - moodLoss) CONFIG.MOOD_MIN CONFIG.MOOD_MAX
                pop := clampI (s.pop - deaths) 0 999999 },
       ⟨deaths, moodLoss⟩)
    else
      ({ s with starveDays := streak
                mood := clamp (s.mood - moodLoss) CONFIG.MOOD_MIN CONFIG.MOOD_MAX },
       ⟨0, moodLoss⟩)

def phasePressures (deficit : ℚ) (outcome : StarveOutcome) (s : GameState) : GameState :=
  let isHungry := 0 < deficit
  let wellFed := (s.pop : ℚ) * CONFIG.MOOD_RECOVER_IF_WELL_FED_MULT < s.food
  let s : GameState :=
    if isHungry then
      let add := deficit * CONFIG.P_SUBS_FROM_DEFICIT_MULT + (s.starveDays : ℚ) * CONFIG.P_SUBS_STREAK_MULT
      { s with pSubsistence := clamp (s.pSubsistence + add) CONFIG.PRESSURE_MIN CONFIG.PRESSURE_MAX }
    else
      let dec := CONFIG.P_DECAY_BASE * (if wellFed then 1.15 else 1)
      { s with pSubsistence := clamp (s.pSubsistence - dec) CONFIG.PRESSURE_MIN CONFIG.PRESSURE_MAX }
  let s : GameState :=
    if s.mood < 50 then
      let add := (50 - s.mood) * CONFIG.P_SEC_FROM_LOW_MOOD_MULT
      { s with pSecurity := clamp (s.pSecurity + add) CONFIG.PRESSURE_MIN CONFIG.PRESSURE_MAX }
    else
      { s with pSecurity := clamp (s.pSecurity - CONFIG.P_DECAY_BASE) CONFIG.PRESSURE_MIN CONFIG.PRESSURE_MAX }
  let s := { s with pExtraction := clamp (s.pExtraction - CONFIG.P_DECAY_BASE * 0.5) CONFIG.PRESSURE_MIN CONFIG.PRESSURE_MAX }
  if 0 < outcome.deaths then
    let shock := (outcome.deaths : ℚ) * CONFIG.P_SHOCK_FROM_DEATHS
    let s := { s with pSubsistence := clamp (s.pSubsistence + shock * 0.6) CONFIG.PRESSURE_MIN CONFIG.PRESSURE_MAX }
    { s with pSecurity := clamp (s.pSecurity + shock * 0.4) CONFIG.PRESSURE_MIN CONFIG.PRESSURE_MAX }
  else s

def phaseAuthorityMoodDrift (s : GameState) : GameState :=
  let s : GameState :=
    if (s.pop : ℚ) * CONFIG.MOOD_RECOVER_IF_WELL_FED_MULT < s.food ∧ s.mood < CONFIG.MOOD_DRIFT_CAP then
      { s with mood := clamp (s.mood + CONFIG.MOOD_DRIFT_UP) CONFIG.MOOD_MIN CONFIG.MOOD_MAX }
    else s
  let s : GameState :=
    if CONFIG.MOOD_TOO_HIGH < s.mood then
      { s with mood := clamp (s.mood - CONFIG.MOOD_DRIFT_DOWN_IF_TOO_HIGH) CONFIG.MOOD_MIN CONFIG.MOOD_MAX }
    else s
  let pressureBleed := CONFIG.AUTH_BLEED_BASE +
    s.pSubsistence * CONFIG.AUTH_BLEED_PSUBS_MULT +
    s.pSecurity * CONFIG.AUTH_BLEED_PSEC_MULT +
    s.pExtraction * CONFIG.AUTH_BLEED_PEXTR_MULT
  let pressuresLow := s.pSubsistence + s.pSecurity + s.pExtraction < 45
  if pressuresLow ∧ 45 ≤ s.mood ∧ s.authority < CONFIG.AUTH_RECOVER_CAP then
    { s with authority := clamp (s.authority + CONFIG.AUTH_RECOVER_BASE) CONFIG.AUTH_MIN CONFIG.AUTH_MAX }
  else
    { s with authority := clamp (s.authority - pressureBleed) CONFIG.AUTH_MIN CONFIG.AUTH_MAX }

def phaseDepopulation (s : GameState) : GameState :=
  let qualifies := CONFIG.MIGRATION_TRIGGER_PSUBS ≤ s.pSubsistence ∧
    CONFIG.MIGRATION_TRIGGER_PSEC ≤ s.pSecurity ∧
    s.mood ≤ CONFIG.MIGRATION_TRIGGER_MOOD
  let s : GameState := if qualifies then { s with depopStreak := s.depopStreak + 1 }
    else { s with depopStreak := 0 }
  if s.depopStreak < CONFIG.MIGRATION_STREAK_START then s
  else
    let cap := max CONFIG.MIGRATION_PER_DAY_MIN ⌊(s.pop : ℚ) * CONFIG.MIGRATION_PER_DAY_MAX_FRAC⌋
    let base := CONFIG.MIGRATION_PER_DAY_MIN
    let extra := ⌊(s.pop : ℚ) * ((s.depopStreak : ℚ) * CONFIG.MIGRATION_STREAK_MULT)⌋
    let leaving := clampI (base + extra) CONFIG.MIGRATION_PER_DAY_MIN cap
    if 0 < leaving ∧ 0 < s.pop then
      { s with pop := clampI (s.pop - leaving) 0 999999
               mood := clamp (s.mood - 1.5) CONFIG.MOOD_MIN CONFIG.MOOD_MAX
               authority := clamp (s.authority - 1) CONFIG.AUTH_MIN CONFIG.AUTH_MAX }
    else s

def phaseEvents (s : GameState) : GameState := maybeTriggerEvent s

def endGame (reason : EndReason) (w : Bool) (s : GameState) : GameState :=
  { s with gameOver := true, win := w, endReason := some reason }

def phaseEndChecks (s : GameState) : GameState :=
  if s.pop ≤ 0 then endGame .popCollapse false s
  else if s.pop ≤ CONFIG.MIGRATION_MIN_POP then endGame .abandoned false s
  else if s.authority ≤ 0 then endGame .authorityCollapse false s
  else if CONFIG.WIN_DAY ≤ s.day then endGame .victory true s
  else s

/-- The phase pipeline of `tick()` (phases 1-12).  In the source,
`const ended = phaseEndChecks(); if (ended) return;` never returns
early: `phaseEndChecks` forwards `endGame(...)`'s `undefined` (and
`null` otherwise), both falsy, so the day counter advances even on the
tick that ends the run. -/
def tickPhases (s : GameState) : GameState :=
  let s := phaseValidate s
  let s := phasePolicyTimers s
  let s := phaseProduction s
  let s := phaseMaintenance s
  let p := phaseConsumption s
  let q := phaseStarvation p.1 p.2
  let s := phasePressures p.1 q.2 q.1
  let s := phaseAuthorityMoodDrift s
  let s := phaseDepopulation s
  let s := phaseEvents s
  let s := phaseEndChecks s
  { s with day := s.day + 1 }

/-- `tick()`: a no-op when the run is over or when paused in
scheduler-driven (`auto`) mode; otherwise the phase pipeline. -/
def tick (s : GameState) : GameState :=
  if s.gameOver then s
  else if s.paused = true ∧ s.mode = .auto then s
  else tickPhases s

/-! ## Player decisions and runs (for the determinism law) -/

/-- One externally-supplied input: a tick request, a workforce slider
move, an action button, a preset button, or an event-option choice.
The wiring layer ignores button presses (but not slider moves) once
the game is over. -/
inductive Decision
  | tickDay
  | setWorkersFood (v : ℤ)
  | setWorkersWood (v : ℤ)
  | setWorkersTools (v : ℤ)
  | buildFarmBtn
  | rationBtn
  | feastBtn
  | presetBtn (p : PresetKey)
  | resolveBtn (idx : ℕ)
deriving Repr, DecidableEq

def stepDecision (s : GameState) : Decision → GameState
  | .tickDay => tick s
  | .setWorkersFood v => validateWorkforce (some .food) { s with workersFood := v }
  | .setWorkersWood v => validateWorkforce (some .wood) { s with workersWood := v }
  | .setWorkersTools v => validateWorkforce (some .tools) { s with workersTools := v }
  | .buildFarmBtn => if s.gameOver then s else buildFarm s
  | .rationBtn => if s.gameOver then s else ration s
  | .feastBtn => if s.gameOver then s else feast s
  | .presetBtn p => if s.gameOver then s else applyPreset p s
  | .resolveBtn idx => if s.gameOver then s else resolveEvent s idx

/-- The state trajectory produced by a run: the sequence of states
after each successive decision. -/
def runTrajectory (s : GameState) : List Decision → List GameState
  | [] => []
  | d :: ds =>
    let s' := stepDecision s d
    s' :: runTrajectory s' ds

/-- The emigration streak after `phaseDepopulation`'s qualify/reset
update (the first two statements of the phase). -/
def depopStreakNext (s : GameState) : ℕ :=
  if CONFIG.MIGRATION_TRIGGER_PSUBS ≤ s.pSubsistence ∧
      CONFIG.MIGRATION_TRIGGER_PSEC ≤ s.pSecurity ∧
      s.mood ≤ CONFIG.MIGRATION_TRIGGER_MOOD then s.depopStreak + 1 else 0

/-- A concrete settlement state: the whole workforce on tooling with an
empty granary (used to analyse the post-tick labor invariant). -/
def cexLaborState : GameState :=
  { INITIAL 1337 with
    mode := .manual
    food := 0
    wood := 0
    tools := 0
    workersFood := 0
    workersWood := 0
    workersTools := 30
    rngState := 0 }

/-- A concrete settlement state whose next tick ends the run through
authority collapse (used to analyse the terminal-check step). -/
def endTickState : GameState :=
  { INITIAL 1337 with
    mode := .manual
    food := 200
    wood := 0
    tools := 0
    workersFood := 0
    workersWood := 0
    workersTools := 0
    authority := 2
    pSubsistence := 60
    rngState := 0 }

/-! ## Helper lemmas -/

theorem clamp_lower (n a b : ℚ) : a ≤ clamp n a b := le_max_left a _

theorem clamp_upper (n a b : ℚ) (h : a ≤ b) : clamp n a b ≤ b :=
  max_le h (min_le_left b n)

theorem clamp_le_self (n a b : ℚ) (h1 : a ≤ n) : clamp n a b ≤ n := by
  unfold clamp
  rcases le_total b n with hb | hb
  · exact max_le h1 (le_trans (min_le_left b n) hb)
  · exact max_le h1 (min_le_right b n)

/-- The workforce allocator with priority `none` (the tick's phase 1)
keeps every slot in `[0, pop]` and the slot sum at most `pop`. -/
theorem phaseValidate_bounds (s : GameState) (hpop : 0 ≤ s.pop) :
    0 ≤ (phaseValidate s).workersFood ∧ (phaseValidate s).workersFood ≤ s.pop ∧
    0 ≤ (phaseValidate s).workersWood ∧ (phaseValidate s).workersWood ≤ s.pop ∧
    0 ≤ (phaseValidate s).workersTools ∧ (phaseValidate s).workersTools ≤ s.pop ∧
    (phaseValidate s).workersFood + (phaseValidate s).workersWood +
      (phaseValidate s).workersTools ≤ s.pop := by
  simp only [phaseValidate, validateWorkforce, clampOrder, reduceOverflow, getSlot, setSlot, clampI]
  split_ifs <;> dsimp only <;> omega

/-- The workforce allocator touches only the three labor slots. -/
theorem validateWorkforce_frame (pk : Option SlotKey) (s : GameState) :
    validateWorkforce pk s =
      { s with workersFood := (validateWorkforce pk s).workersFood
               workersWood := (validateWorkforce pk s).workersWood
               workersTools := (validateWorkforce pk s).workersTools } := by
  rcases pk with _ | k
  · simp only [validateWorkforce, clampOrder, reduceOverflow, getSlot, setSlot, clampI]
    split_ifs <;> rfl
  · cases k <;>
      (simp only [validateWorkforce, clampOrder, reduceOverflow, getSlot, setSlot, clampI]
       split_ifs <;> rfl)

/-! ## Claim C4: the workforce reconcile operation -/

/-- C4: for every state and every changed slot, `validateWorkforce`
leaves each labor slot in `[0, population]` with slot sum at most the
population, changes no field other than the three labor slots, and the
changed slot keeps its clamped value — it would be reduced only if the
other two slots had already been emptied, which the removal order makes
vacuously true (after per-slot clamping the overflow never exceeds the
other two slots). -/
theorem validateWorkforce_reconcile (s : GameState) (k : SlotKey) (hpop : 0 ≤ s.pop) :
    (0 ≤ (validateWorkforce (some k) s).workersFood ∧ (validateWorkforce (some k) s).workersFood ≤ s.pop) ∧
    (0 ≤ (validateWorkforce (some k) s).workersWood ∧ (validateWorkforce (some k) s).workersWood ≤ s.pop) ∧
    (0 ≤ (validateWorkforce (some k) s).workersTools ∧ (validateWorkforce (some k) s).workersTools ≤ s.pop) ∧
    ((validateWorkforce (some k) s).workersFood + (validateWorkforce (some k) s).workersWood +
      (validateWorkforce (some k) s).workersTools ≤ s.pop) ∧
    (validateWorkforce (some k) s =
      { s with workersFood := (validateWorkforce (some k) s).workersFood
               workersWood := (validateWorkforce (some k) s).workersWood
               workersTools := (validateWorkforce (some k) s).workersTools }) ∧
    (getSlot (validateWorkforce (some k) s) k = clampI (getSlot s k) 0 s.pop) ∧
    (getSlot (validateWorkforce (some k) s) k < clampI (getSlot s k) 0 s.pop →
      ∀ j, j ≠ k → getSlot (validateWorkforce (some k) s) j = 0) := by
  cases k <;>
    (simp only [validateWorkforce, clampOrder, reduceOverflow, getSlot, setSlot, clampI]
     split_ifs <;>
       (refine ⟨⟨?_, ?_⟩, ⟨?_, ?_⟩, ⟨?_, ?_⟩, ?_, ?_, ?_, ?_⟩ <;> dsimp only <;>
        first
          | rfl
          | omega))

/-- Witness for C4 at a concrete over-allocated state. -/
theorem validateWorkforce_reconcile_witness :
    0 ≤ ({ INITIAL 1337 with workersFood := 40, workersWood := 20, workersTools := 7 } : GameState).pop ∧
    (validateWorkforce (some .food)
        { INITIAL 1337 with workersFood := 40, workersWood := 20, workersTools := 7 }).workersFood +
      (validateWorkforce (some .food)
        { INITIAL 1337 with workersFood := 40, workersWood := 20, workersTools := 7 }).workersWood +
      (validateWorkforce (some .food)
        { INITIAL 1337 with workersFood := 40, workersWood := 20, workersTools := 7 }).workersTools ≤
      ({ INITIAL 1337 with workersFood := 40, workersWood := 20, workersTools := 7 } : GameState).pop :=
  ⟨by norm_num [INITIAL],
   (validateWorkforce_reconcile
      { INITIAL 1337 with workersFood := 40, workersWood := 20, workersTools := 7 } .food
      (by norm_num [INITIAL])).2.2.2.1⟩

/-! ## Claim C10: the declare-feast action -/

/-- C10: `feast` is a no-op when food < 20; otherwise it sets the
feasting timer to `FEAST_DAYS`, clears the rationing timer, and deducts
exactly 10 food (half of the 20-food precondition), so the resulting
stock is always at least 10. -/
theorem feast_action (s : GameState) :
    (s.food < 20 → feast s = s) ∧
    (20 ≤ s.food →
      (feast s).feasting = CONFIG.FEAST_DAYS ∧ (feast s).rationing = 0 ∧
      (feast s).food = s.food - 10 ∧ 10 ≤ (feast s).food) := by
  constructor
  · intro h
    simp only [feast, if_pos h]
  · intro h
    have hnot : ¬ s.food < 20 := not_lt.mpr h
    simp only [feast, if_neg hnot, applyEffects, effTruthy]
    norm_num
    linarith

/-- Witness for C10 in its applicable branch. -/
theorem feast_action_witness :
    (20 : ℚ) ≤ ({ INITIAL 1337 with food := 25 } : GameState).food ∧
    (feast { INITIAL 1337 with food := 25 }).food =
      ({ INITIAL 1337 with food := 25 } : GameState).food - 10 :=
  ⟨by norm_num [INITIAL],
   ((feast_action { INITIAL 1337 with food := 25 }).2 (by norm_num [INITIAL])).2.2.1⟩

/-! ## Claim C9: event resolution guards -/

/-- C9: `resolveEvent` leaves the whole state unchanged when no event
is pending, when the index names no option, or when the option's guard
fails; when the guard holds it applies the option's effect and clears
the pending event. -/
theorem resolveEvent_guarded (s : GameState) (idx : ℕ) :
    (s.activeEvent = none → resolveEvent s idx = s) ∧
    (∀ k, s.activeEvent = some k → (eventOptions k)[idx]? = none → resolveEvent s idx = s) ∧
    (∀ k opt, s.activeEvent = some k → (eventOptions k)[idx]? = some opt →
      opt.can s = false → resolveEvent s idx = s) ∧
    (∀ k opt, s.activeEvent = some k → (eventOptions k)[idx]? = some opt →
      opt.can s = true →
      resolveEvent s idx = { opt.run s with activeEvent := none } ∧
      (resolveEvent s idx).activeEvent = none) := by
  refine ⟨fun h => by simp [resolveEvent, h],
    fun k hk hn => by simp [resolveEvent, hk, hn],
    fun k opt hk ho hc => by simp [resolveEvent, hk, ho, hc],
    fun k opt hk ho hc => by simp [resolveEvent, hk, ho, hc]⟩

/-- Witness for C9: an out-of-range option index is a no-op, and
resolving a guard-true option clears the pending event. -/
theorem resolveEvent_guarded_witness :
    resolveEvent { INITIAL 1337 with activeEvent := some .TRADERS } 5 =
      { INITIAL 1337 with activeEvent := some .TRADERS } ∧
    (resolveEvent { INITIAL 1337 with activeEvent := some .TRADERS } 1).activeEvent = none :=
  ⟨(resolveEvent_guarded { INITIAL 1337 with activeEvent := some .TRADERS } 5).2.1
      .TRADERS rfl rfl,
   ((resolveEvent_guarded { INITIAL 1337 with activeEvent := some .TRADERS } 1).2.2.2
      .TRADERS ⟨fun _ => true, fun s => applyEffects { mood := some (-1) } s⟩
      rfl rfl rfl).2⟩

/-! ## Claim C6: starvation morale loss stays in its band -/

/-- C6: with a positive deficit, the morale loss applied by
`phaseStarvation` equals the doubly-clamped escalated loss (the hunger
streak in the escalation factor is the streak after this day's
increment, `starveDays + 1`, matching the phase's own update order),
and that loss always lies in `[lossMin, lossMax]`; morale is then
reduced by exactly that loss, clamped into `[0, 100]`. -/
theorem starvation_moodLoss_band (s : GameState) (deficit : ℚ) (hd : 0 < deficit) :
    (phaseStarvation deficit s).2.moodLoss =
      clamp (clamp (deficit * CONFIG.STARVATION_MOOD_LOSS_MULT)
          CONFIG.STARVATION_MOOD_LOSS_MIN CONFIG.STARVATION_MOOD_LOSS_MAX *
          (1 + ((s.starveDays + 1 : ℕ) : ℚ) * CONFIG.STARVE_MOOD_MULT_PER_DAY))
        CONFIG.STARVATION_MOOD_LOSS_MIN CONFIG.STARVATION_MOOD_LOSS_MAX ∧
    CONFIG.STARVATION_MOOD_LOSS_MIN ≤ (phaseStarvation deficit s).2.moodLoss ∧
    (phaseStarvation deficit s).2.moodLoss ≤ CONFIG.STARVATION_MOOD_LOSS_MAX ∧
    (phaseStarvation deficit s).1.mood =
      clamp (s.mood - (phaseStarvation deficit s).2.moodLoss)
        CONFIG.MOOD_MIN CONFIG.MOOD_MAX := by
  have h0 : ¬ deficit ≤ 0 := not_le.mpr hd
  simp only [phaseStarvation, if_neg h0]
  split_ifs <;>
    exact ⟨rfl, clamp_lower _ _ _,
      clamp_upper _ _ _ (by norm_num [CONFIG.STARVATION_MOOD_LOSS_MIN, CONFIG.STARVATION_MOOD_LOSS_MAX]),
      rfl⟩

/-- Witness for C6 at `deficit = 30` on the initial state. -/
theorem starvation_moodLoss_band_witness :
    (0 : ℚ) < 30 ∧
    CONFIG.STARVATION_MOOD_LOSS_MIN ≤ (phaseStarvation 30 (INITIAL 1337)).2.moodLoss ∧
    (phaseStarvation 30 (INITIAL 1337)).2.moodLoss ≤ CONFIG.STARVATION_MOOD_LOSS_MAX :=
  ⟨by norm_num,
   (starvation_moodLoss_band (INITIAL 1337) 30 (by norm_num)).2.1,
   (starvation_moodLoss_band (INITIAL 1337) 30 (by norm_num)).2.2.1⟩

/-! ## Claim C5: starvation deaths -/

/-- C5: with a positive deficit, deaths occur only above the serious
famine cutoff `pop × 0.8`; above it the death count is the escalated
unfed count clamped into `[1, ⌊pop × 0.35⌋]` (the hunger streak is the
post-increment streak, as in C6), and the population drops by exactly
that count.  The source clamps to `max 1 ⌊pop × 0.35⌋`, which agrees
with the claim's cap because the raw death count is always ≥ 1. -/
theorem starvation_deaths (s : GameState) (deficit : ℚ) (hd : 0 < deficit)
    (hpop1 : 1 ≤ s.pop) (hpop2 : s.pop ≤ 999999) :
    (deficit ≤ (s.pop : ℚ) * CONFIG.STARVATION_DEATH_DEFICIT_FRAC →
      (phaseStarvation deficit s).1.pop = s.pop ∧
      (phaseStarvation deficit s).2.deaths = 0) ∧
    ((s.pop : ℚ) * CONFIG.STARVATION_DEATH_DEFICIT_FRAC < deficit →
      (phaseStarvation deficit s).2.deaths =
        clampI ⌊(⌈deficit / CONFIG.FOOD_CONSUMPTION_PER_POP⌉ : ℚ) *
            (1 + ((s.starveDays + 1 : ℕ) : ℚ) * CONFIG.STARVE_DEATH_MULT_PER_DAY)⌋
          1 ⌊(s.pop : ℚ) * CONFIG.STARVE_DEATH_MAX_PER_DAY_FRAC⌋ ∧
      (phaseStarvation deficit s).1.pop =
        s.pop - clampI ⌊(⌈deficit / CONFIG.FOOD_CONSUMPTION_PER_POP⌉ : ℚ) *
            (1 + ((s.starveDays + 1 : ℕ) : ℚ) * CONFIG.STARVE_DEATH_MULT_PER_DAY)⌋
          1 ⌊(s.pop : ℚ) * CONFIG.STARVE_DEATH_MAX_PER_DAY_FRAC⌋) := by
  have h0 : ¬ deficit ≤ 0 := not_le.mpr hd
  have hunfed : (1 : ℤ) ≤ ⌈deficit / CONFIG.FOOD_CONSUMPTION_PER_POP⌉ := by
    have hpos : (0 : ℚ) < deficit / CONFIG.FOOD_CONSUMPTION_PER_POP := by
      rw [show CONFIG.FOOD_CONSUMPTION_PER_POP = 1 from rfl, div_one]
      exact hd
    exact Int.ceil_pos.mpr hpos
  have hu' : (1 : ℚ) ≤ (⌈deficit / CONFIG.FOOD_CONSUMPTION_PER_POP⌉ : ℚ) := by
    exact_mod_cast hunfed
  have hmult : (1 : ℚ) ≤ 1 + ((s.starveDays + 1 : ℕ) : ℚ) * CONFIG.STARVE_DEATH_MULT_PER_DAY := by
    have : (0 : ℚ) ≤ ((s.starveDays + 1 : ℕ) : ℚ) * CONFIG.STARVE_DEATH_MULT_PER_DAY := by
      have h1 : (0 : ℚ) ≤ ((s.starveDays + 1 : ℕ) : ℚ) := by positivity
      have h2 : (0 : ℚ) ≤ CONFIG.STARVE_DEATH_MULT_PER_DAY := by
        norm_num [CONFIG.STARVE_DEATH_MULT_PER_DAY]
      exact mul_nonneg h1 h2
    linarith
  have hraw : (1 : ℤ) ≤ ⌊(⌈deficit / CONFIG.FOOD_CONSUMPTION_PER_POP⌉ : ℚ) *
      (1 + ((s.starveDays + 1 : ℕ) : ℚ) * CONFIG.STARVE_DEATH_MULT_PER_DAY)⌋ := by
    refine Int.le_floor.mpr ?_
    have hprod := mul_le_mul hu' hmult (by linarith) (by linarith)
    linarith [hprod]
  have hple : ⌊(s.pop : ℚ) * CONFIG.STARVE_DEATH_MAX_PER_DAY_FRAC⌋ ≤ s.pop := by
    have hp0 : (0 : ℚ) ≤ (s.pop : ℚ) := by exact_mod_cast (by omega : (0 : ℤ) ≤ s.pop)
    have hle : (s.pop : ℚ) * CONFIG.STARVE_DEATH_MAX_PER_DAY_FRAC ≤ (s.pop : ℚ) := by
      rw [show CONFIG.STARVE_DEATH_MAX_PER_DAY_FRAC = 0.35 from rfl]
      nlinarith
    calc ⌊(s.pop : ℚ) * CONFIG.STARVE_DEATH_MAX_PER_DAY_FRAC⌋ ≤ ⌊(s.pop : ℚ)⌋ :=
          Int.floor_le_floor hle
      _ = s.pop := Int.floor_intCast s.pop
  constructor
  · intro hns
    have hn : ¬ ((s.pop : ℚ) * CONFIG.STARVATION_DEATH_DEFICIT_FRAC < deficit) := not_lt.mpr hns
    simp only [phaseStarvation, if_neg h0, if_neg hn]
    exact ⟨by trivial, by trivial⟩
  · intro hs
    simp only [phaseStarvation, if_neg h0, if_pos hs]
    refine ⟨?_, ?_⟩ <;> simp only [clampI] <;> omega

/-- Witness for C5 in the serious-famine branch (initial state,
deficit 30 > 0.8 × 30). -/
theorem starvation_deaths_witness :
    (1 : ℤ) ≤ (INITIAL 1337).pop ∧
    ((INITIAL 1337).pop : ℚ) * CONFIG.STARVATION_DEATH_DEFICIT_FRAC < 30 ∧
    (phaseStarvation 30 (INITIAL 1337)).1.pop =
      (INITIAL 1337).pop - clampI ⌊(⌈(30 : ℚ) / CONFIG.FOOD_CONSUMPTION_PER_POP⌉ : ℚ) *
          (1 + (((INITIAL 1337).starveDays + 1 : ℕ) : ℚ) * CONFIG.STARVE_DEATH_MULT_PER_DAY)⌋
        1 ⌊((INITIAL 1337).pop : ℚ) * CONFIG.STARVE_DEATH_MAX_PER_DAY_FRAC⌋ :=
  ⟨by norm_num [INITIAL],
   by norm_num [INITIAL, CONFIG.STARVATION_DEATH_DEFICIT_FRAC],
   ((starvation_deaths (INITIAL 1337) 30 (by norm_num)
        (by norm_num [INITIAL]) (by norm_num [INITIAL])).2
      (by norm_num [INITIAL, CONFIG.STARVATION_DEATH_DEFICIT_FRAC])).2⟩

/-! ## Claim C7: emigration -/

/-- C7: below the minimum streak the emigration phase changes neither
the population nor any meter or stock (only the streak counter is
updated); once the updated streak reaches the minimum, exactly
`clamp(base + ⌊pop × streak × streakMult⌋, minPerDay, ⌊pop × maxFrac⌋)`
people leave (the source's `max 1 ⌊pop × 0.08⌋` cap coincides with the
claim's because the uncapped amount is always ≥ 1), and morale and
legitimacy are reduced by their clamped decrements. -/
theorem depopulation_spec (s : GameState) (hpop1 : 1 ≤ s.pop) (hpop2 : s.pop ≤ 999999)
    (hm : 0 ≤ s.mood) (ha : 0 ≤ s.authority) :
    (depopStreakNext s < CONFIG.MIGRATION_STREAK_START →
      (phaseDepopulation s).pop = s.pop ∧
      (phaseDepopulation s).mood = s.mood ∧
      (phaseDepopulation s).authority = s.authority ∧
      (phaseDepopulation s).pSubsistence = s.pSubsistence ∧
      (phaseDepopulation s).pSecurity = s.pSecurity ∧
      (phaseDepopulation s).pExtraction = s.pExtraction ∧
      (phaseDepopulation s).food = s.food ∧
      (phaseDepopulation s).wood = s.wood ∧
      (phaseDepopulation s).tools = s.tools) ∧
    (CONFIG.MIGRATION_STREAK_START ≤ depopStreakNext s →
      (phaseDepopulation s).pop = s.pop -
        clampI (CONFIG.MIGRATION_PER_DAY_MIN +
            ⌊(s.pop : ℚ) * ((depopStreakNext s : ℚ) * CONFIG.MIGRATION_STREAK_MULT)⌋)
          CONFIG.MIGRATION_PER_DAY_MIN ⌊(s.pop : ℚ) * CONFIG.MIGRATION_PER_DAY_MAX_FRAC⌋ ∧
      (phaseDepopulation s).mood = clamp (s.mood - 1.5) CONFIG.MOOD_MIN CONFIG.MOOD_MAX ∧
      (phaseDepopulation s).authority = clamp (s.authority - 1) CONFIG.AUTH_MIN CONFIG.AUTH_MAX ∧
      (phaseDepopulation s).mood ≤ s.mood ∧
      (phaseDepopulation s).authority ≤ s.authority) := by
  have hp0 : (0 : ℚ) ≤ (s.pop : ℚ) := by exact_mod_cast (by omega : (0 : ℤ) ≤ s.pop)
  have hextra : (0 : ℤ) ≤ ⌊(s.pop : ℚ) * ((depopStreakNext s : ℚ) * CONFIG.MIGRATION_STREAK_MULT)⌋ := by
    refine Int.le_floor.mpr ?_
    push_cast
    have h1 : (0 : ℚ) ≤ (depopStreakNext s : ℚ) := by positivity
    have h2 : (0 : ℚ) ≤ CONFIG.MIGRATION_STREAK_MULT := by norm_num [CONFIG.MIGRATION_STREAK_MULT]
    exact mul_nonneg hp0 (mul_nonneg h1 h2)
  have hcaple : ⌊(s.pop : ℚ) * CONFIG.MIGRATION_PER_DAY_MAX_FRAC⌋ ≤ s.pop := by
    have hle : (s.pop : ℚ) * CONFIG.MIGRATION_PER_DAY_MAX_FRAC ≤ (s.pop : ℚ) := by
      rw [show CONFIG.MIGRATION_PER_DAY_MAX_FRAC = 0.08 from rfl]
      nlinarith
    calc ⌊(s.pop : ℚ) * CONFIG.MIGRATION_PER_DAY_MAX_FRAC⌋ ≤ ⌊(s.pop : ℚ)⌋ :=
          Int.floor_le_floor hle
      _ = s.pop := Int.floor_intCast s.pop
  have hmoodle : clamp (s.mood - 1.5) CONFIG.MOOD_MIN CONFIG.MOOD_MAX ≤ s.mood := by
    refine max_le ?_ (le_trans (min_le_right _ _) (by linarith))
    rw [show CONFIG.MOOD_MIN = 0 from rfl]
    exact hm
  have hauthle : clamp (s.authority - 1) CONFIG.AUTH_MIN CONFIG.AUTH_MAX ≤ s.authority := by
    refine max_le ?_ (le_trans (min_le_right _ _) (by linarith))
    rw [show CONFIG.AUTH_MIN = 0 from rfl]
    exact ha
  by_cases hq : CONFIG.MIGRATION_TRIGGER_PSUBS ≤ s.pSubsistence ∧
      CONFIG.MIGRATION_TRIGGER_PSEC ≤ s.pSecurity ∧ s.mood ≤ CONFIG.MIGRATION_TRIGGER_MOOD
  · simp only [depopStreakNext, if_pos hq] at hextra ⊢
    simp only [phaseDepopulation, if_pos hq]
    split_ifs with h1 h2 <;> dsimp only <;>
      constructor <;> intro hstk <;>
      first
        | exact ⟨rfl, rfl, rfl, rfl, rfl, rfl, rfl, rfl, rfl⟩
        | (exfalso
           simp only [CONFIG.MIGRATION_STREAK_START] at hstk h1
           omega)
        | (refine ⟨?_, rfl, rfl, hmoodle, hauthle⟩
           simp only [clampI, CONFIG.MIGRATION_PER_DAY_MIN] at h2 ⊢
           omega)
        | (exfalso
           apply h2
           simp only [clampI, CONFIG.MIGRATION_PER_DAY_MIN]
           omega)
  · simp only [depopStreakNext, if_neg hq] at hextra ⊢
    simp only [phaseDepopulation, if_neg hq]
    split_ifs with h1 <;> dsimp only <;>
      constructor <;> intro hstk <;>
      first
        | exact ⟨rfl, rfl, rfl, rfl, rfl, rfl, rfl, rfl, rfl⟩
        | (exfalso
           simp only [CONFIG.MIGRATION_STREAK_START] at hstk h1
           omega)

/-- Witness for C7 in the migration branch: sustained pressure, low
mood, and an established streak. -/
theorem depopulation_spec_witness :
    CONFIG.MIGRATION_STREAK_START ≤ depopStreakNext
      { INITIAL 1337 with pSubsistence := 60, pSecurity := 60, mood := 30, depopStreak := 4 } ∧
    (phaseDepopulation
        { INITIAL 1337 with pSubsistence := 60, pSecurity := 60, mood := 30, depopStreak := 4 }).mood ≤
      ({ INITIAL 1337 with pSubsistence := 60, pSecurity := 60, mood := 30, depopStreak := 4 } : GameState).mood :=
  ⟨by norm_num [depopStreakNext, INITIAL, CONFIG.MIGRATION_TRIGGER_PSUBS,
      CONFIG.MIGRATION_TRIGGER_PSEC, CONFIG.MIGRATION_TRIGGER_MOOD, CONFIG.MIGRATION_STREAK_START],
   ((depopulation_spec
      { INITIAL 1337 with pSubsistence := 60, pSecurity := 60, mood := 30, depopStreak := 4 }
      (by norm_num [INITIAL]) (by norm_num [INITIAL]) (by norm_num [INITIAL]) (by norm_num [INITIAL])).2
      (by norm_num [depopStreakNext, INITIAL, CONFIG.MIGRATION_TRIGGER_PSUBS,
        CONFIG.MIGRATION_TRIGGER_PSEC, CONFIG.MIGRATION_TRIGGER_MOOD,
        CONFIG.MIGRATION_STREAK_START])).2.2.2.1⟩

/-! ## Frame (shape) lemmas: which fields each phase can touch -/

theorem phaseValidate_shape (s : GameState) :
    ∃ a b c, phaseValidate s =
      { s with workersFood := a, workersWood := b, workersTools := c } :=
  ⟨_, _, _, validateWorkforce_frame none s⟩

theorem phaseConsumption_shape (s : GameState) :
    ∃ f, (phaseConsumption s).2 = { s with food := f } := ⟨_, rfl⟩

theorem phaseStarvation_shape (d : ℚ) (s : GameState) :
    ∃ sd m p, (phaseStarvation d s).1 =
      { s with starveDays := sd, mood := m, pop := p } := by
  unfold phaseStarvation
  split_ifs <;> exact ⟨_, _, _, rfl⟩

theorem phasePressures_shape (d : ℚ) (o : StarveOutcome) (s : GameState) :
    ∃ a b c, phasePressures d o s =
      { s with pSubsistence := a, pSecurity := b, pExtraction := c } := by
  simp only [phasePressures]
  split_ifs <;> exact ⟨_, _, _, rfl⟩

theorem phaseAuthorityMoodDrift_shape (s : GameState) :
    ∃ m a, phaseAuthorityMoodDrift s = { s with mood := m, authority := a } := by
  simp only [phaseAuthorityMoodDrift]
  split_ifs <;> exact ⟨_, _, rfl⟩

theorem phaseDepopulation_shape (s : GameState) :
    ∃ d p m a, phaseDepopulation s =
      { s with depopStreak := d, pop := p, mood := m, authority := a } := by
  simp only [phaseDepopulation]
  split_ifs <;> exact ⟨_, _, _, _, rfl⟩

theorem maybeTriggerEvent_shape (s : GameState) :
    ∃ rs ae, maybeTriggerEvent s = { s with rngState := rs, activeEvent := ae } := by
  simp only [maybeTriggerEvent]
  split_ifs <;> exact ⟨_, _, rfl⟩

theorem phaseEndChecks_shape (s : GameState) :
    ∃ go w er, phaseEndChecks s =
      { s with gameOver := go, win := w, endReason := er } := by
  simp only [phaseEndChecks, endGame]
  split_ifs <;> exact ⟨_, _, _, rfl⟩

/-! ## Field-preservation corollaries of the frame lemmas -/

theorem phaseValidate_fields (s : GameState) :
    (phaseValidate s).day = s.day ∧ (phaseValidate s).pop = s.pop ∧
    (phaseValidate s).food = s.food ∧ (phaseValidate s).wood = s.wood ∧
    (phaseValidate s).tools = s.tools ∧ (phaseValidate s).mood = s.mood ∧
    (phaseValidate s).authority = s.authority ∧
    (phaseValidate s).pSubsistence = s.pSubsistence ∧
    (phaseValidate s).pSecurity = s.pSecurity ∧
    (phaseValidate s).pExtraction = s.pExtraction ∧
    (phaseValidate s).starveDays = s.starveDays ∧
    (phaseValidate s).rationing = s.rationing ∧
    (phaseValidate s).feasting = s.feasting ∧
    (phaseValidate s).farms = s.farms ∧
    (phaseValidate s).gameOver = s.gameOver ∧ (phaseValidate s).win = s.win := by
  obtain ⟨a, b, c, h⟩ := phaseValidate_shape s
  rw [h]
  exact ⟨rfl, rfl, rfl, rfl, rfl, rfl, rfl, rfl, rfl, rfl, rfl, rfl, rfl, rfl, rfl, rfl⟩

theorem phasePolicyTimers_fields (s : GameState) :
    (phasePolicyTimers s).day = s.day ∧ (phasePolicyTimers s).pop = s.pop ∧
    (phasePolicyTimers s).food = s.food ∧ (phasePolicyTimers s).wood = s.wood ∧
    (phasePolicyTimers s).tools = s.tools ∧ (phasePolicyTimers s).mood = s.mood ∧
    (phasePolicyTimers s).authority = s.authority ∧
    (phasePolicyTimers s).pSubsistence = s.pSubsistence ∧
    (phasePolicyTimers s).pSecurity = s.pSecurity ∧
    (phasePolicyTimers s).pExtraction = s.pExtraction ∧
    (phasePolicyTimers s).starveDays = s.starveDays ∧
    (phasePolicyTimers s).workersFood = s.workersFood ∧
    (phasePolicyTimers s).workersWood = s.workersWood ∧
    (phasePolicyTimers s).workersTools = s.workersTools ∧
    (phasePolicyTimers s).gameOver = s.gameOver ∧ (phasePolicyTimers s).win = s.win :=
  ⟨rfl, rfl, rfl, rfl, rfl, rfl, rfl, rfl, rfl, rfl, rfl, rfl, rfl, rfl, rfl, rfl⟩

theorem phaseProduction_fields (s : GameState) :
    (phaseProduction s).day = s.day ∧ (phaseProduction s).pop = s.pop ∧
    (phaseProduction s).mood = s.mood ∧ (phaseProduction s).authority = s.authority ∧
    (phaseProduction s).pSubsistence = s.pSubsistence ∧
    (phaseProduction s).pSecurity = s.pSecurity ∧
    (phaseProduction s).pExtraction = s.pExtraction ∧
    (phaseProduction s).starveDays = s.starveDays ∧
    (phaseProduction s).workersFood = s.workersFood ∧
    (phaseProduction s).workersWood = s.workersWood ∧
    (phaseProduction s).workersTools = s.workersTools ∧
    (phaseProduction s).rationing = s.rationing ∧
    (phaseProduction s).feasting = s.feasting ∧
    (phaseProduction s).gameOver = s.gameOver ∧ (phaseProduction s).win = s.win :=
  ⟨rfl, rfl, rfl, rfl, rfl, rfl, rfl, rfl, rfl, rfl, rfl, rfl, rfl, rfl, rfl⟩

theorem phaseMaintenance_fields (s : GameState) :
    (phaseMaintenance s).day = s.day ∧ (phaseMaintenance s).pop = s.pop ∧
    (phaseMaintenance s).food = s.food ∧ (phaseMaintenance s).wood = s.wood ∧
    (phaseMaintenance s).mood = s.mood ∧ (phaseMaintenance s).authority = s.authority ∧
    (phaseMaintenance s).pSubsistence = s.pSubsistence ∧
    (phaseMaintenance s).pSecurity = s.pSecurity ∧
    (phaseMaintenance s).pExtraction = s.pExtraction ∧
    (phaseMaintenance s).starveDays = s.starveDays ∧
    (phaseMaintenance s).workersFood = s.workersFood ∧
    (phaseMaintenance s).workersWood = s.workersWood ∧
    (phaseMaintenance s).workersTools = s.workersTools ∧
    (phaseMaintenance s).rationing = s.rationing ∧
    (phaseMaintenance s).feasting = s.feasting ∧
    (phaseMaintenance s).gameOver = s.gameOver ∧ (phaseMaintenance s).win = s.win :=
  ⟨rfl, rfl, rfl, rfl, rfl, rfl, rfl, rfl, rfl, rfl, rfl, rfl, rfl, rfl, rfl, rfl, rfl⟩

theorem phaseConsumption_fields (s : GameState) :
    (phaseConsumption s).2.day = s.day ∧ (phaseConsumption s).2.pop = s.pop ∧
    (phaseConsumption s).2.wood = s.wood ∧ (phaseConsumption s).2.tools = s.tools ∧
    (phaseConsumption s).2.mood = s.mood ∧ (phaseConsumption s).2.authority = s.authority ∧
    (phaseConsumption s).2.pSubsistence = s.pSubsistence ∧
    (phaseConsumption s).2.pSecurity = s.pSecurity ∧
    (phaseConsumption s).2.pExtraction = s.pExtraction ∧
    (phaseConsumption s).2.starveDays = s.starveDays ∧
    (phaseConsumption s).2.workersFood = s.workersFood ∧
    (phaseConsumption s).2.workersWood = s.workersWood ∧
    (phaseConsumption s).2.workersTools = s.workersTools ∧
    (phaseConsumption s).2.gameOver = s.gameOver ∧ (phaseConsumption s).2.win = s.win :=
  ⟨rfl, rfl, rfl, rfl, rfl, rfl, rfl, rfl, rfl, rfl, rfl, rfl, rfl, rfl, rfl⟩

theorem phaseStarvation_fields (d : ℚ) (s : GameState) :
    (phaseStarvation d s).1.day = s.day ∧
    (phaseStarvation d s).1.food = s.food ∧ (phaseStarvation d s).1.wood = s.wood ∧
    (phaseStarvation d s).1.tools = s.tools ∧
    (phaseStarvation d s).1.authority = s.authority ∧
    (phaseStarvation d s).1.pSubsistence = s.pSubsistence ∧
    (phaseStarvation d s).1.pSecurity = s.pSecurity ∧
    (phaseStarvation d s).1.pExtraction = s.pExtraction ∧
    (phaseStarvation d s).1.workersFood = s.workersFood ∧
    (phaseStarvation d s).1.workersWood = s.workersWood ∧
    (phaseStarvation d s).1.workersTools = s.workersTools ∧
    (phaseStarvation d s).1.gameOver = s.gameOver ∧ (phaseStarvation d s).1.win = s.win := by
  obtain ⟨sd, m, p, h⟩ := phaseStarvation_shape d s
  rw [h]
  exact ⟨rfl, rfl, rfl, rfl, rfl, rfl, rfl, rfl, rfl, rfl, rfl, rfl, rfl⟩

theorem phasePressures_fields (d : ℚ) (o : StarveOutcome) (s : GameState) :
    (phasePressures d o s).day = s.day ∧ (phasePressures d o s).pop = s.pop ∧
    (phasePressures d o s).food = s.food ∧ (phasePressures d o s).wood = s.wood ∧
    (phasePressures d o s).tools = s.tools ∧ (phasePressures d o s).mood = s.mood ∧
    (phasePressures d o s).authority = s.authority ∧
    (phasePressures d o s).starveDays = s.starveDays ∧
    (phasePressures d o s).workersFood = s.workersFood ∧
    (phasePressures d o s).workersWood = s.workersWood ∧
    (phasePressures d o s).workersTools = s.workersTools ∧
    (phasePressures d o s).gameOver = s.gameOver ∧ (phasePressures d o s).win = s.win := by
  obtain ⟨a, b, c, h⟩ := phasePressures_shape d o s
  rw [h]
  exact ⟨rfl, rfl, rfl, rfl, rfl, rfl, rfl, rfl, rfl, rfl, rfl, rfl, rfl⟩

theorem phaseAuthorityMoodDrift_fields (s : GameState) :
    (phaseAuthorityMoodDrift s).day = s.day ∧ (phaseAuthorityMoodDrift s).pop = s.pop ∧
    (phaseAuthorityMoodDrift s).food = s.food ∧ (phaseAuthorityMoodDrift s).wood = s.wood ∧
    (phaseAuthorityMoodDrift s).tools = s.tools ∧
    (phaseAuthorityMoodDrift s).pSubsistence = s.pSubsistence ∧
    (phaseAuthorityMoodDrift s).pSecurity = s.pSecurity ∧
    (phaseAuthorityMoodDrift s).pExtraction = s.pExtraction ∧
    (phaseAuthorityMoodDrift s).starveDays = s.starveDays ∧
    (phaseAuthorityMoodDrift s).workersFood = s.workersFood ∧
    (phaseAuthorityMoodDrift s).workersWood = s.workersWood ∧
    (phaseAuthorityMoodDrift s).workersTools = s.workersTools ∧
    (phaseAuthorityMoodDrift s).gameOver = s.gameOver ∧
    (phaseAuthorityMoodDrift s).win = s.win := by
  obtain ⟨m, a, h⟩ := phaseAuthorityMoodDrift_shape s
  rw [h]
  exact ⟨rfl, rfl, rfl, rfl, rfl, rfl, rfl, rfl, rfl, rfl, rfl, rfl, rfl, rfl⟩

theorem phaseDepopulation_fields (s : GameState) :
    (phaseDepopulation s).day = s.day ∧
    (phaseDepopulation s).food = s.food ∧ (phaseDepopulation s).wood = s.wood ∧
    (phaseDepopulation s).tools = s.tools ∧
    (phaseDepopulation s).pSubsistence = s.pSubsistence ∧
    (phaseDepopulation s).pSecurity = s.pSecurity ∧
    (phaseDepopulation s).pExtraction = s.pExtraction ∧
    (phaseDepopulation s).starveDays = s.starveDays ∧
    (phaseDepopulation s).workersFood = s.workersFood ∧
    (phaseDepopulation s).workersWood = s.workersWood ∧
    (phaseDepopulation s).workersTools = s.workersTools ∧
    (phaseDepopulation s).gameOver = s.gameOver ∧ (phaseDepopulation s).win = s.win := by
  obtain ⟨d, p, m, a, h⟩ := phaseDepopulation_shape s
  rw [h]
  exact ⟨rfl, rfl, rfl, rfl, rfl, rfl, rfl, rfl, rfl, rfl, rfl, rfl, rfl⟩

theorem phaseEvents_fields (s : GameState) :
    (phaseEvents s).day = s.day ∧ (phaseEvents s).pop = s.pop ∧
    (phaseEvents s).food = s.food ∧ (phaseEvents s).wood = s.wood ∧
    (phaseEvents s).tools = s.tools ∧ (phaseEvents s).mood = s.mood ∧
    (phaseEvents s).authority = s.authority ∧
    (phaseEvents s).pSubsistence = s.pSubsistence ∧
    (phaseEvents s).pSecurity = s.pSecurity ∧
    (phaseEvents s).pExtraction = s.pExtraction ∧
    (phaseEvents s).starveDays = s.starveDays ∧
    (phaseEvents s).workersFood = s.workersFood ∧
    (phaseEvents s).workersWood = s.workersWood ∧
    (phaseEvents s).workersTools = s.workersTools ∧
    (phaseEvents s).gameOver = s.gameOver ∧ (phaseEvents s).win = s.win := by
  obtain ⟨rs, ae, h⟩ := maybeTriggerEvent_shape s
  rw [phaseEvents, h]
  exact ⟨rfl, rfl, rfl, rfl, rfl, rfl, rfl, rfl, rfl, rfl, rfl, rfl, rfl, rfl, rfl, rfl⟩

theorem phaseEndChecks_fields (s : GameState) :
    (phaseEndChecks s).day = s.day ∧ (phaseEndChecks s).pop = s.pop ∧
    (phaseEndChecks s).food = s.food ∧ (phaseEndChecks s).wood = s.wood ∧
    (phaseEndChecks s).tools = s.tools ∧ (phaseEndChecks s).mood = s.mood ∧
    (phaseEndChecks s).authority = s.authority ∧
    (phaseEndChecks s).pSubsistence = s.pSubsistence ∧
    (phaseEndChecks s).pSecurity = s.pSecurity ∧
    (phaseEndChecks s).pExtraction = s.pExtraction ∧
    (phaseEndChecks s).starveDays = s.starveDays ∧
    (phaseEndChecks s).workersFood = s.workersFood ∧
    (phaseEndChecks s).workersWood = s.workersWood ∧
    (phaseEndChecks s).workersTools = s.workersTools := by
  obtain ⟨go, w, er, h⟩ := phaseEndChecks_shape s
  rw [h]
  exact ⟨rfl, rfl, rfl, rfl, rfl, rfl, rfl, rfl, rfl, rfl, rfl, rfl, rfl, rfl⟩

/-! ## Claim C8: the hunger streak tracks the daily deficit -/

/-- C8: on every tick that runs its phases, the hunger streak ends the
tick at 0 exactly when the food stock on entry to consumption (i.e.
after production) covers the day's demand; otherwise it ends at its
previous value plus one. -/
theorem hungerStreak_tracks_deficit (s : GameState)
    (hgo : s.gameOver = false)
    (hpause : ¬(s.paused = true ∧ s.mode = Mode.auto)) :
    (tick s).starveDays =
      if foodConsumptionPerDay
            (phaseMaintenance (phaseProduction (phasePolicyTimers (phaseValidate s)))) ≤
          (phaseMaintenance (phaseProduction (phasePolicyTimers (phaseValidate s)))).food
      then 0 else s.starveDays + 1 := by
  have htick : tick s = tickPhases s := by
    simp only [tick, hgo]
    rw [if_neg (by simp), if_neg hpause]
  rw [htick]
  simp only [tickPhases]
  simp only [phaseEndChecks_fields, phaseEvents_fields, phaseDepopulation_fields,
    phaseAuthorityMoodDrift_fields, phasePressures_fields]
  have h2 : (phaseConsumption
      (phaseMaintenance (phaseProduction (phasePolicyTimers (phaseValidate s))))).2.starveDays =
      s.starveDays := by
    simp only [phaseConsumption_fields, phaseMaintenance_fields, phaseProduction_fields,
      phasePolicyTimers_fields, phaseValidate_fields]
  by_cases hc : foodConsumptionPerDay
        (phaseMaintenance (phaseProduction (phasePolicyTimers (phaseValidate s)))) ≤
      (phaseMaintenance (phaseProduction (phasePolicyTimers (phaseValidate s)))).food
  · rw [if_pos hc]
    have hp1 : (phaseConsumption
        (phaseMaintenance (phaseProduction (phasePolicyTimers (phaseValidate s))))).1 = 0 := by
      simp only [phaseConsumption]
      rw [if_neg (by linarith)]
    rw [hp1]
    simp only [phaseStarvation]
    rw [if_pos le_rfl]
  · rw [if_neg hc]
    have hfood : (phaseMaintenance (phaseProduction (phasePolicyTimers (phaseValidate s)))).food <
        foodConsumptionPerDay (phaseMaintenance (phaseProduction (phasePolicyTimers (phaseValidate s)))) :=
      not_le.mp hc
    have hp1 : (phaseConsumption
        (phaseMaintenance (phaseProduction (phasePolicyTimers (phaseValidate s))))).1 =
        foodConsumptionPerDay (phaseMaintenance (phaseProduction (phasePolicyTimers (phaseValidate s)))) -
          (phaseMaintenance (phaseProduction (phasePolicyTimers (phaseValidate s)))).food := by
      simp only [phaseConsumption]
      rw [if_pos (by linarith)]
    rw [hp1]
    simp only [phaseStarvation]
    rw [if_neg (by linarith)]
    split_ifs <;> dsimp only <;> rw [h2]

/-- Witness for C8 on the initial state, which runs its phases. -/
theorem hungerStreak_tracks_deficit_witness :
    (INITIAL 1337).gameOver = false ∧
    ¬((INITIAL 1337).paused = true ∧ (INITIAL 1337).mode = Mode.auto) ∧
    (tick (INITIAL 1337)).starveDays =
      if foodConsumptionPerDay
            (phaseMaintenance (phaseProduction (phasePolicyTimers (phaseValidate (INITIAL 1337))))) ≤
          (phaseMaintenance (phaseProduction (phasePolicyTimers (phaseValidate (INITIAL 1337))))).food
      then 0 else (INITIAL 1337).starveDays + 1 :=
  ⟨rfl, by simp [INITIAL], hungerStreak_tracks_deficit (INITIAL 1337) rfl (by simp [INITIAL])⟩

/-! ## Range lemmas for the bounded meters -/

theorem clampMood_mem (n : ℚ) :
    0 ≤ clamp n CONFIG.MOOD_MIN CONFIG.MOOD_MAX ∧
    clamp n CONFIG.MOOD_MIN CONFIG.MOOD_MAX ≤ 100 :=
  ⟨le_trans (by norm_num [CONFIG.MOOD_MIN]) (clamp_lower n _ _),
   le_trans (clamp_upper n _ _ (by norm_num [CONFIG.MOOD_MIN, CONFIG.MOOD_MAX]))
     (by norm_num [CONFIG.MOOD_MAX])⟩

theorem clampAuth_mem (n : ℚ) :
    0 ≤ clamp n CONFIG.AUTH_MIN CONFIG.AUTH_MAX ∧
    clamp n CONFIG.AUTH_MIN CONFIG.AUTH_MAX ≤ 100 :=
  ⟨le_trans (by norm_num [CONFIG.AUTH_MIN]) (clamp_lower n _ _),
   le_trans (clamp_upper n _ _ (by norm_num [CONFIG.AUTH_MIN, CONFIG.AUTH_MAX]))
     (by norm_num [CONFIG.AUTH_MAX])⟩

theorem clampPressure_mem (n : ℚ) :
    0 ≤ clamp n CONFIG.PRESSURE_MIN CONFIG.PRESSURE_MAX ∧
    clamp n CONFIG.PRESSURE_MIN CONFIG.PRESSURE_MAX ≤ 100 :=
  ⟨le_trans (by norm_num [CONFIG.PRESSURE_MIN]) (clamp_lower n _ _),
   le_trans (clamp_upper n _ _ (by norm_num [CONFIG.PRESSURE_MIN, CONFIG.PRESSURE_MAX]))
     (by norm_num [CONFIG.PRESSURE_MAX])⟩

theorem phaseStarvation_mood_mem (d : ℚ) (s : GameState)
    (h0 : 0 ≤ s.mood) (h1 : s.mood ≤ 100) :
    0 ≤ (phaseStarvation d s).1.mood ∧ (phaseStarvation d s).1.mood ≤ 100 := by
  unfold phaseStarvation
  split_ifs <;> dsimp only <;>
    first
      | exact ⟨h0, h1⟩
      | exact clampMood_mem _

theorem phasePressures_mem (d : ℚ) (o : StarveOutcome) (s : GameState) :
    (0 ≤ (phasePressures d o s).pSubsistence ∧ (phasePressures d o s).pSubsistence ≤ 100) ∧
    (0 ≤ (phasePressures d o s).pSecurity ∧ (phasePressures d o s).pSecurity ≤ 100) ∧
    (0 ≤ (phasePressures d o s).pExtraction ∧ (phasePressures d o s).pExtraction ≤ 100) := by
  simp only [phasePressures]
  split_ifs <;> dsimp only <;>
    exact ⟨clampPressure_mem _, clampPressure_mem _, clampPressure_mem _⟩

theorem phaseAuthorityMoodDrift_mem (s : GameState)
    (h0 : 0 ≤ s.mood) (h1 : s.mood ≤ 100) :
    (0 ≤ (phaseAuthorityMoodDrift s).mood ∧ (phaseAuthorityMoodDrift s).mood ≤ 100) ∧
    (0 ≤ (phaseAuthorityMoodDrift s).authority ∧ (phaseAuthorityMoodDrift s).authority ≤ 100) := by
  simp only [phaseAuthorityMoodDrift]
  split_ifs <;> dsimp only <;>
    exact ⟨by first | exact ⟨h0, h1⟩ | exact clampMood_mem _, clampAuth_mem _⟩

theorem phaseDepopulation_mem (s : GameState)
    (hm0 : 0 ≤ s.mood) (hm1 : s.mood ≤ 100)
    (ha0 : 0 ≤ s.authority) (ha1 : s.authority ≤ 100) :
    (0 ≤ (phaseDepopulation s).mood ∧ (phaseDepopulation s).mood ≤ 100) ∧
    (0 ≤ (phaseDepopulation s).authority ∧ (phaseDepopulation s).authority ≤ 100) := by
  simp only [phaseDepopulation]
  split_ifs <;> dsimp only <;>
    exact ⟨by first | exact ⟨hm0, hm1⟩ | exact clampMood_mem _,
           by first | exact ⟨ha0, ha1⟩ | exact clampAuth_mem _⟩

theorem toolsBonusMult_nonneg (s : GameState) : 0 ≤ toolsBonusMult s :=
  le_trans (by norm_num [CONFIG.TOOLS_MIN_BONUS] : (0 : ℚ) ≤ CONFIG.TOOLS_MIN_BONUS)
    (le_max_left _ _)

theorem phaseProduction_wood_nonneg (s : GameState)
    (hw : 0 ≤ s.wood) (hww : 0 ≤ s.workersWood) : 0 ≤ (phaseProduction s).wood := by
  have hcast : (0 : ℚ) ≤ (s.workersWood : ℚ) := by exact_mod_cast hww
  have hrate : (0 : ℚ) ≤ CONFIG.WOOD_PER_WORKER := by norm_num [CONFIG.WOOD_PER_WORKER]
  have : 0 ≤ woodPerDay s :=
    mul_nonneg (mul_nonneg hcast hrate) (toolsBonusMult_nonneg s)
  show 0 ≤ s.wood + woodPerDay s
  linarith

theorem phaseMaintenance_tools_nonneg (s : GameState) : 0 ≤ (phaseMaintenance s).tools :=
  le_trans (by norm_num) (clamp_lower _ 0 999999)

theorem phaseConsumption_food_nonneg (s : GameState) : 0 ≤ (phaseConsumption s).2.food := by
  simp only [phaseConsumption]
  split_ifs with h
  · exact le_refl 0
  · linarith

/-! ## Claim C1 (amended): meters, stocks, and labor after a tick -/

/-- C1 (amended): on every tick that runs its phases, starting from a
state with `pop ≥ 0`, in-range morale and a nonnegative wood stock:
every labor slot ends the tick nonnegative and the slot sum is bounded
by the population as of the START of the tick (mid-tick deaths and
emigration can push the sum above the end-of-tick population — see the
counterexample — and the overflow is reconciled only at the next tick's
phase 1); morale, legitimacy and the three pressures end in `[0, 100]`;
and the food, wood and tooling stocks end nonnegative. -/
theorem tick_meters_and_labor (s : GameState)
    (hpop : 0 ≤ s.pop) (hm0 : 0 ≤ s.mood) (hm1 : s.mood ≤ 100) (hw : 0 ≤ s.wood)
    (hgo : s.gameOver = false) (hpause : ¬(s.paused = true ∧ s.mode = Mode.auto)) :
    0 ≤ (tick s).workersFood ∧ 0 ≤ (tick s).workersWood ∧ 0 ≤ (tick s).workersTools ∧
    (tick s).workersFood + (tick s).workersWood + (tick s).workersTools ≤ s.pop ∧
    0 ≤ (tick s).mood ∧ (tick s).mood ≤ 100 ∧
    0 ≤ (tick s).authority ∧ (tick s).authority ≤ 100 ∧
    0 ≤ (tick s).pSubsistence ∧ (tick s).pSubsistence ≤ 100 ∧
    0 ≤ (tick s).pSecurity ∧ (tick s).pSecurity ≤ 100 ∧
    0 ≤ (tick s).pExtraction ∧ (tick s).pExtraction ≤ 100 ∧
    0 ≤ (tick s).food ∧ 0 ≤ (tick s).wood ∧ 0 ≤ (tick s).tools := by
  have htick : tick s = tickPhases s := by
    simp only [tick, hgo]
    rw [if_neg (by simp), if_neg hpause]
  obtain ⟨b1, b2, b3, b4, b5, b6, b7⟩ := phaseValidate_bounds s hpop
  have hwf : (tick s).workersFood = (phaseValidate s).workersFood := by
    rw [htick]
    simp only [tickPhases, phaseEndChecks_fields, phaseEvents_fields, phaseDepopulation_fields,
    phaseAuthorityMoodDrift_fields, phasePressures_fields, phaseStarvation_fields,
    phaseConsumption_fields, phaseMaintenance_fields, phaseProduction_fields,
    phasePolicyTimers_fields, phaseValidate_fields]
  have hww : (tick s).workersWood = (phaseValidate s).workersWood := by
    rw [htick]
    simp only [tickPhases, phaseEndChecks_fields, phaseEvents_fields, phaseDepopulation_fields,
    phaseAuthorityMoodDrift_fields, phasePressures_fields, phaseStarvation_fields,
    phaseConsumption_fields, phaseMaintenance_fields, phaseProduction_fields,
    phasePolicyTimers_fields, phaseValidate_fields]
  have hwt : (tick s).workersTools = (phaseValidate s).workersTools := by
    rw [htick]
    simp only [tickPhases, phaseEndChecks_fields, phaseEvents_fields, phaseDepopulation_fields,
    phaseAuthorityMoodDrift_fields, phasePressures_fields, phaseStarvation_fields,
    phaseConsumption_fields, phaseMaintenance_fields, phaseProduction_fields,
    phasePolicyTimers_fields, phaseValidate_fields]
  have hPm : (phaseConsumption (phaseMaintenance (phaseProduction (phasePolicyTimers (phaseValidate s))))).2.mood = s.mood := by
    simp only [phaseEndChecks_fields, phaseEvents_fields, phaseDepopulation_fields,
    phaseAuthorityMoodDrift_fields, phasePressures_fields, phaseStarvation_fields,
    phaseConsumption_fields, phaseMaintenance_fields, phaseProduction_fields,
    phasePolicyTimers_fields, phaseValidate_fields]
  have hQm := phaseStarvation_mood_mem (phaseConsumption (phaseMaintenance (phaseProduction (phasePolicyTimers (phaseValidate s))))).1 (phaseConsumption (phaseMaintenance (phaseProduction (phasePolicyTimers (phaseValidate s))))).2
    (by rw [hPm]; exact hm0) (by rw [hPm]; exact hm1)
  have h7m : (phasePressures (phaseConsumption (phaseMaintenance (phaseProduction (phasePolicyTimers (phaseValidate s))))).1 (phaseStarvation (phaseConsumption (phaseMaintenance (phaseProduction (phasePolicyTimers (phaseValidate s))))).1 (phaseConsumption (phaseMaintenance (phaseProduction (phasePolicyTimers (phaseValidate s))))).2).2 (phaseStarvation (phaseConsumption (phaseMaintenance (phaseProduction (phasePolicyTimers (phaseValidate s))))).1 (phaseConsumption (phaseMaintenance (phaseProduction (phasePolicyTimers (phaseValidate s))))).2).1).mood = (phaseStarvation (phaseConsumption (phaseMaintenance (phaseProduction (phasePolicyTimers (phaseValidate s))))).1 (phaseConsumption (phaseMaintenance (phaseProduction (phasePolicyTimers (phaseValidate s))))).2).1.mood := by
    simp only [phasePressures_fields]
  have h8 := phaseAuthorityMoodDrift_mem (phasePressures (phaseConsumption (phaseMaintenance (phaseProduction (phasePolicyTimers (phaseValidate s))))).1 (phaseStarvation (phaseConsumption (phaseMaintenance (phaseProduction (phasePolicyTimers (phaseValidate s))))).1 (phaseConsumption (phaseMaintenance (phaseProduction (phasePolicyTimers (phaseValidate s))))).2).2 (phaseStarvation (phaseConsumption (phaseMaintenance (phaseProduction (phasePolicyTimers (phaseValidate s))))).1 (phaseConsumption (phaseMaintenance (phaseProduction (phasePolicyTimers (phaseValidate s))))).2).1)
    (by rw [h7m]; exact hQm.1) (by rw [h7m]; exact hQm.2)
  have h9 := phaseDepopulation_mem (phaseAuthorityMoodDrift (phasePressures (phaseConsumption (phaseMaintenance (phaseProduction (phasePolicyTimers (phaseValidate s))))).1 (phaseStarvation (phaseConsumption (phaseMaintenance (phaseProduction (phasePolicyTimers (phaseValidate s))))).1 (phaseConsumption (phaseMaintenance (phaseProduction (phasePolicyTimers (phaseValidate s))))).2).2 (phaseStarvation (phaseConsumption (phaseMaintenance (phaseProduction (phasePolicyTimers (phaseValidate s))))).1 (phaseConsumption (phaseMaintenance (phaseProduction (phasePolicyTimers (phaseValidate s))))).2).1)) h8.1.1 h8.1.2 h8.2.1 h8.2.2
  have hmoodEq : (tick s).mood = (phaseDepopulation (phaseAuthorityMoodDrift (phasePressures (phaseConsumption (phaseMaintenance (phaseProduction (phasePolicyTimers (phaseValidate s))))).1 (phaseStarvation (phaseConsumption (phaseMaintenance (phaseProduction (phasePolicyTimers (phaseValidate s))))).1 (phaseConsumption (phaseMaintenance (phaseProduction (phasePolicyTimers (phaseValidate s))))).2).2 (phaseStarvation (phaseConsumption (phaseMaintenance (phaseProduction (phasePolicyTimers (phaseValidate s))))).1 (phaseConsumption (phaseMaintenance (phaseProduction (phasePolicyTimers (phaseValidate s))))).2).1))).mood := by
    rw [htick]
    simp only [tickPhases, phaseEndChecks_fields, phaseEvents_fields]
  have hauthEq : (tick s).authority = (phaseDepopulation (phaseAuthorityMoodDrift (phasePressures (phaseConsumption (phaseMaintenance (phaseProduction (phasePolicyTimers (phaseValidate s))))).1 (phaseStarvation (phaseConsumption (phaseMaintenance (phaseProduction (phasePolicyTimers (phaseValidate s))))).1 (phaseConsumption (phaseMaintenance (phaseProduction (phasePolicyTimers (phaseValidate s))))).2).2 (phaseStarvation (phaseConsumption (phaseMaintenance (phaseProduction (phasePolicyTimers (phaseValidate s))))).1 (phaseConsumption (phaseMaintenance (phaseProduction (phasePolicyTimers (phaseValidate s))))).2).1))).authority := by
    rw [htick]
    simp only [tickPhases, phaseEndChecks_fields, phaseEvents_fields]
  have hpress := phasePressures_mem (phaseConsumption (phaseMaintenance (phaseProduction (phasePolicyTimers (phaseValidate s))))).1 (phaseStarvation (phaseConsumption (phaseMaintenance (phaseProduction (phasePolicyTimers (phaseValidate s))))).1 (phaseConsumption (phaseMaintenance (phaseProduction (phasePolicyTimers (phaseValidate s))))).2).2 (phaseStarvation (phaseConsumption (phaseMaintenance (phaseProduction (phasePolicyTimers (phaseValidate s))))).1 (phaseConsumption (phaseMaintenance (phaseProduction (phasePolicyTimers (phaseValidate s))))).2).1
  have hpsEq : (tick s).pSubsistence = (phasePressures (phaseConsumption (phaseMaintenance (phaseProduction (phasePolicyTimers (phaseValidate s))))).1 (phaseStarvation (phaseConsumption (phaseMaintenance (phaseProduction (phasePolicyTimers (phaseValidate s))))).1 (phaseConsumption (phaseMaintenance (phaseProduction (phasePolicyTimers (phaseValidate s))))).2).2 (phaseStarvation (phaseConsumption (phaseMaintenance (phaseProduction (phasePolicyTimers (phaseValidate s))))).1 (phaseConsumption (phaseMaintenance (phaseProduction (phasePolicyTimers (phaseValidate s))))).2).1).pSubsistence := by
    rw [htick]
    simp only [tickPhases, phaseEndChecks_fields, phaseEvents_fields, phaseDepopulation_fields,
      phaseAuthorityMoodDrift_fields]
  have hsecEq : (tick s).pSecurity = (phasePressures (phaseConsumption (phaseMaintenance (phaseProduction (phasePolicyTimers (phaseValidate s))))).1 (phaseStarvation (phaseConsumption (phaseMaintenance (phaseProduction (phasePolicyTimers (phaseValidate s))))).1 (phaseConsumption (phaseMaintenance (phaseProduction (phasePolicyTimers (phaseValidate s))))).2).2 (phaseStarvation (phaseConsumption (phaseMaintenance (phaseProduction (phasePolicyTimers (phaseValidate s))))).1 (phaseConsumption (phaseMaintenance (phaseProduction (phasePolicyTimers (phaseValidate s))))).2).1).pSecurity := by
    rw [htick]
    simp only [tickPhases, phaseEndChecks_fields, phaseEvents_fields, phaseDepopulation_fields,
      phaseAuthorityMoodDrift_fields]
  have hextEq : (tick s).pExtraction = (phasePressures (phaseConsumption (phaseMaintenance (phaseProduction (phasePolicyTimers (phaseValidate s))))).1 (phaseStarvation (phaseConsumption (phaseMaintenance (phaseProduction (phasePolicyTimers (phaseValidate s))))).1 (phaseConsumption (phaseMaintenance (phaseProduction (phasePolicyTimers (phaseValidate s))))).2).2 (phaseStarvation (phaseConsumption (phaseMaintenance (phaseProduction (phasePolicyTimers (phaseValidate s))))).1 (phaseConsumption (phaseMaintenance (phaseProduction (phasePolicyTimers (phaseValidate s))))).2).1).pExtraction := by
    rw [htick]
    simp only [tickPhases, phaseEndChecks_fields, phaseEvents_fields, phaseDepopulation_fields,
      phaseAuthorityMoodDrift_fields]
  have hfoodEq : (tick s).food = (phaseConsumption (phaseMaintenance (phaseProduction (phasePolicyTimers (phaseValidate s))))).2.food := by
    rw [htick]
    simp only [tickPhases, phaseEndChecks_fields, phaseEvents_fields, phaseDepopulation_fields,
      phaseAuthorityMoodDrift_fields, phasePressures_fields, phaseStarvation_fields]
  have hwoodEq : (tick s).wood = (phaseProduction (phasePolicyTimers (phaseValidate s))).wood := by
    rw [htick]
    simp only [tickPhases, phaseEndChecks_fields, phaseEvents_fields, phaseDepopulation_fields,
    phaseAuthorityMoodDrift_fields, phasePressures_fields, phaseStarvation_fields,
    phaseConsumption_fields, phaseMaintenance_fields, phaseProduction_fields,
    phasePolicyTimers_fields, phaseValidate_fields]
  have htoolsEq : (tick s).tools = (phaseMaintenance (phaseProduction (phasePolicyTimers (phaseValidate s)))).tools := by
    rw [htick]
    simp only [tickPhases, phaseEndChecks_fields, phaseEvents_fields, phaseDepopulation_fields,
      phaseAuthorityMoodDrift_fields, phasePressures_fields, phaseStarvation_fields,
      phaseConsumption_fields]
  have hw2 : 0 ≤ (phasePolicyTimers (phaseValidate s)).wood := by
    have : (phasePolicyTimers (phaseValidate s)).wood = s.wood := by
      simp only [phasePolicyTimers_fields, phaseValidate_fields]
    rw [this]
    exact hw
  have hww2 : 0 ≤ (phasePolicyTimers (phaseValidate s)).workersWood := by
    have : (phasePolicyTimers (phaseValidate s)).workersWood = (phaseValidate s).workersWood := by
      simp only [phasePolicyTimers_fields, phaseValidate_fields]
    rw [this]
    exact b3
  refine ⟨?_, ?_, ?_, ?_, ?_, ?_, ?_, ?_, ?_, ?_, ?_, ?_, ?_, ?_, ?_, ?_, ?_⟩
  · rw [hwf]; exact b1
  · rw [hww]; exact b3
  · rw [hwt]; exact b5
  · rw [hwf, hww, hwt]; exact b7
  · rw [hmoodEq]; exact h9.1.1
  · rw [hmoodEq]; exact h9.1.2
  · rw [hauthEq]; exact h9.2.1
  · rw [hauthEq]; exact h9.2.2
  · rw [hpsEq]; exact hpress.1.1
  · rw [hpsEq]; exact hpress.1.2
  · rw [hsecEq]; exact hpress.2.1.1
  · rw [hsecEq]; exact hpress.2.1.2
  · rw [hextEq]; exact hpress.2.2.1
  · rw [hextEq]; exact hpress.2.2.2
  · rw [hfoodEq]; exact phaseConsumption_food_nonneg (phaseMaintenance (phaseProduction (phasePolicyTimers (phaseValidate s))))
  · rw [hwoodEq]; exact phaseProduction_wood_nonneg (phasePolicyTimers (phaseValidate s)) hw2 hww2
  · rw [htoolsEq]; exact phaseMaintenance_tools_nonneg (phaseProduction (phasePolicyTimers (phaseValidate s)))

/-- Counterexample to C1 as stated: `cexLaborState` satisfies every
property the claim demands after a tick (labor sum within population,
meters in range, stocks nonnegative) and its tick runs the phases, yet
after that tick the labor sum (30) exceeds the population (20): ten
people starve in phase 6 and no later phase re-reconciles the labor
slots. -/
theorem tick_labor_sum_counterexample :
    cexLaborState.gameOver = false ∧
    ¬(cexLaborState.paused = true ∧ cexLaborState.mode = Mode.auto) ∧
    (0 ≤ cexLaborState.workersFood + cexLaborState.workersWood + cexLaborState.workersTools ∧
      cexLaborState.workersFood + cexLaborState.workersWood + cexLaborState.workersTools ≤ cexLaborState.pop) ∧
    (0 ≤ cexLaborState.mood ∧ cexLaborState.mood ≤ 100) ∧
    (0 ≤ cexLaborState.authority ∧ cexLaborState.authority ≤ 100) ∧
    (0 ≤ cexLaborState.pSubsistence ∧ cexLaborState.pSubsistence ≤ 100) ∧
    (0 ≤ cexLaborState.pSecurity ∧ cexLaborState.pSecurity ≤ 100) ∧
    (0 ≤ cexLaborState.pExtraction ∧ cexLaborState.pExtraction ≤ 100) ∧
    0 ≤ cexLaborState.food ∧ 0 ≤ cexLaborState.wood ∧ 0 ≤ cexLaborState.tools ∧
    (tick cexLaborState).workersFood + (tick cexLaborState).workersWood +
        (tick cexLaborState).workersTools = 30 ∧
    (tick cexLaborState).pop = 20 ∧
    ¬((tick cexLaborState).workersFood + (tick cexLaborState).workersWood +
        (tick cexLaborState).workersTools ≤ (tick cexLaborState).pop) := by
  have hgo : cexLaborState.gameOver = false := rfl
  have hpa : ¬(cexLaborState.paused = true ∧ cexLaborState.mode = Mode.auto) := by
    simp [cexLaborState, INITIAL]
  have hrun : tick cexLaborState = tickPhases cexLaborState := by
    simp only [tick, hgo]
    rw [if_neg (by simp), if_neg hpa]
  have h1 : phaseValidate cexLaborState = cexLaborState := by
    norm_num [phaseValidate, validateWorkforce, clampOrder, reduceOverflow, getSlot, setSlot,
      clampI, cexLaborState, INITIAL]
  have h2 : phasePolicyTimers cexLaborState = cexLaborState := by
    norm_num [phasePolicyTimers, cexLaborState, INITIAL]
  have h3 : phaseProduction cexLaborState = { cexLaborState with tools := 21/2 } := by
    norm_num [phaseProduction, foodPerDay, woodPerDay, toolsPerDay, farmBonusMult, toolsBonusMult,
      clamp, cexLaborState, INITIAL, CONFIG.FOOD_PER_WORKER, CONFIG.WOOD_PER_WORKER,
      CONFIG.TOOLS_PER_WORKER, CONFIG.FARM_FOOD_MULT_PER_FARM, CONFIG.TOOLS_SOFTCAP,
      CONFIG.TOOLS_BONUS_PER_TOOL, CONFIG.TOOLS_MIN_BONUS]
  have h4 : phaseMaintenance { cexLaborState with tools := 21/2 } =
      { cexLaborState with tools := 8 } := by
    norm_num [phaseMaintenance, toolsDecayPerDay, clamp, cexLaborState, INITIAL,
      CONFIG.TOOLS_DECAY_FLAT, CONFIG.TOOLS_DECAY_PER_POP]
  have h5 : phaseConsumption { cexLaborState with tools := 8 } =
      (30, { cexLaborState with tools := 8 }) := by
    norm_num [phaseConsumption, foodConsumptionPerDay, cexLaborState, INITIAL,
      CONFIG.FOOD_CONSUMPTION_PER_POP, CONFIG.RATION_CONSUMPTION_MULT,
      CONFIG.FEAST_CONSUMPTION_MULT]
  have h6 : phaseStarvation 30 { cexLaborState with tools := 8 } =
      ({ cexLaborState with tools := 8, starveDays := 1, mood := 3257/50, pop := 20 },
       ⟨10, 243/50⟩) := by
    norm_num [phaseStarvation, clamp, clampI, cexLaborState, INITIAL,
      CONFIG.STARVATION_MOOD_LOSS_MULT, CONFIG.STARVATION_MOOD_LOSS_MIN,
      CONFIG.STARVATION_MOOD_LOSS_MAX, CONFIG.STARVE_MOOD_MULT_PER_DAY,
      CONFIG.FOOD_CONSUMPTION_PER_POP, CONFIG.STARVE_DEATH_MULT_PER_DAY,
      CONFIG.STARVE_DEATH_MAX_PER_DAY_FRAC, CONFIG.STARVATION_DEATH_DEFICIT_FRAC,
      CONFIG.MOOD_MIN, CONFIG.MOOD_MAX]
  have h7 : phasePressures 30 ⟨10, 243/50⟩
        { cexLaborState with tools := 8, starveDays := 1, mood := 3257/50, pop := 20 } =
      { cexLaborState with tools := 8, starveDays := 1, mood := 3257/50, pop := 20, pSubsistence := 407/20, pSecurity := 12/5 } := by
    norm_num [phasePressures, clamp, cexLaborState, INITIAL,
      CONFIG.MOOD_RECOVER_IF_WELL_FED_MULT, CONFIG.P_SUBS_FROM_DEFICIT_MULT,
      CONFIG.P_SUBS_STREAK_MULT, CONFIG.P_DECAY_BASE, CONFIG.P_SEC_FROM_LOW_MOOD_MULT,
      CONFIG.P_SHOCK_FROM_DEATHS, CONFIG.PRESSURE_MIN, CONFIG.PRESSURE_MAX]
  have h8 : phaseAuthorityMoodDrift
        { cexLaborState with tools := 8, starveDays := 1, mood := 3257/50, pop := 20, pSubsistence := 407/20, pSecurity := 12/5 } =
      { cexLaborState with tools := 8, starveDays := 1, mood := 3257/50, pop := 20, pSubsistence := 407/20, pSecurity := 12/5, authority := 281/4 } := by
    norm_num [phaseAuthorityMoodDrift, clamp, cexLaborState, INITIAL,
      CONFIG.MOOD_RECOVER_IF_WELL_FED_MULT, CONFIG.MOOD_DRIFT_CAP, CONFIG.MOOD_DRIFT_UP,
      CONFIG.MOOD_TOO_HIGH, CONFIG.MOOD_DRIFT_DOWN_IF_TOO_HIGH,
      CONFIG.AUTH_BLEED_BASE, CONFIG.AUTH_BLEED_PSUBS_MULT, CONFIG.AUTH_BLEED_PSEC_MULT,
      CONFIG.AUTH_BLEED_PEXTR_MULT, CONFIG.AUTH_RECOVER_BASE, CONFIG.AUTH_RECOVER_CAP,
      CONFIG.MOOD_MIN, CONFIG.MOOD_MAX, CONFIG.AUTH_MIN, CONFIG.AUTH_MAX]
  have h9 : phaseDepopulation
        { cexLaborState with tools := 8, starveDays := 1, mood := 3257/50, pop := 20, pSubsistence := 407/20, pSecurity := 12/5, authority := 281/4 } =
      { cexLaborState with tools := 8, starveDays := 1, mood := 3257/50, pop := 20, pSubsistence := 407/20, pSecurity := 12/5, authority := 281/4 } := by
    norm_num [phaseDepopulation, cexLaborState, INITIAL,
      CONFIG.MIGRATION_TRIGGER_PSUBS, CONFIG.MIGRATION_TRIGGER_PSEC,
      CONFIG.MIGRATION_TRIGGER_MOOD, CONFIG.MIGRATION_STREAK_START]
  have hwf : (tick cexLaborState).workersFood = 0 := by
    rw [hrun]
    simp only [tickPhases, h1, h2, h3, h4, h5, h6, h7, h8, h9]
    simp only [phaseEndChecks_fields, phaseEvents_fields]
    norm_num [cexLaborState, INITIAL]
  have hww : (tick cexLaborState).workersWood = 0 := by
    rw [hrun]
    simp only [tickPhases, h1, h2, h3, h4, h5, h6, h7, h8, h9]
    simp only [phaseEndChecks_fields, phaseEvents_fields]
    norm_num [cexLaborState, INITIAL]
  have hwt : (tick cexLaborState).workersTools = 30 := by
    rw [hrun]
    simp only [tickPhases, h1, h2, h3, h4, h5, h6, h7, h8, h9]
    simp only [phaseEndChecks_fields, phaseEvents_fields]
    norm_num [cexLaborState, INITIAL]
  have hpop : (tick cexLaborState).pop = 20 := by
    rw [hrun]
    simp only [tickPhases, h1, h2, h3, h4, h5, h6, h7, h8, h9]
    simp only [phaseEndChecks_fields, phaseEvents_fields]
  refine ⟨hgo, hpa, by norm_num [cexLaborState, INITIAL], by norm_num [cexLaborState, INITIAL],
    by norm_num [cexLaborState, INITIAL], by norm_num [cexLaborState, INITIAL],
    by norm_num [cexLaborState, INITIAL], by norm_num [cexLaborState, INITIAL],
    by norm_num [cexLaborState, INITIAL], by norm_num [cexLaborState, INITIAL],
    by norm_num [cexLaborState, INITIAL], ?_, hpop, ?_⟩
  · rw [hwf, hww, hwt]
    norm_num
  · rw [hwf, hww, hwt, hpop]
    norm_num

/-- Witness for the amended C1 on the initial state. -/
theorem tick_meters_and_labor_witness :
    0 ≤ (INITIAL 1337).pop ∧
    (tick (INITIAL 1337)).workersFood + (tick (INITIAL 1337)).workersWood +
        (tick (INITIAL 1337)).workersTools ≤ (INITIAL 1337).pop ∧
    0 ≤ (tick (INITIAL 1337)).mood ∧ (tick (INITIAL 1337)).mood ≤ 100 :=
  ⟨by norm_num [INITIAL],
   (tick_meters_and_labor (INITIAL 1337) (by norm_num [INITIAL]) (by norm_num [INITIAL])
      (by norm_num [INITIAL]) (by norm_num [INITIAL]) rfl (by simp [INITIAL])).2.2.2.1,
   (tick_meters_and_labor (INITIAL 1337) (by norm_num [INITIAL]) (by norm_num [INITIAL])
      (by norm_num [INITIAL]) (by norm_num [INITIAL]) rfl (by simp [INITIAL])).2.2.2.2.1,
   (tick_meters_and_labor (INITIAL 1337) (by norm_num [INITIAL]) (by norm_num [INITIAL])
      (by norm_num [INITIAL]) (by norm_num [INITIAL]) rfl (by simp [INITIAL])).2.2.2.2.2.1⟩

/-- C3 failing input: on `endTickState` the tick's terminal check fires
(authority reaches 0, the third condition in priority order, and the
run ends with that reason), yet the day counter still advances from 1
to 2, because the source's `const ended = phaseEndChecks(); if (ended)
return;` tests `endGame`'s `undefined` return value, which is falsy.
A tick on a state whose run has already ended is a no-op, as claimed. -/
theorem tick_end_day_increment_bug :
    (tick endTickState).gameOver = true ∧
    (tick endTickState).win = false ∧
    (tick endTickState).endReason = some EndReason.authorityCollapse ∧
    endTickState.day = 1 ∧
    (tick endTickState).day = 2 ∧
    tick { endTickState with gameOver := true } = { endTickState with gameOver := true } := by
  have hgo : endTickState.gameOver = false := rfl
  have hpa : ¬(endTickState.paused = true ∧ endTickState.mode = Mode.auto) := by
    simp [endTickState, INITIAL]
  have hrun : tick endTickState = tickPhases endTickState := by
    simp only [tick, hgo]
    rw [if_neg (by simp), if_neg hpa]
  have h1 : phaseValidate endTickState = endTickState := by
    norm_num [phaseValidate, validateWorkforce, clampOrder, reduceOverflow, getSlot, setSlot,
      clampI, endTickState, INITIAL]
  have h2 : phasePolicyTimers endTickState = endTickState := by
    norm_num [phasePolicyTimers, endTickState, INITIAL]
  have h3 : phaseProduction endTickState = endTickState := by
    norm_num [phaseProduction, foodPerDay, woodPerDay, toolsPerDay, farmBonusMult, toolsBonusMult,
      clamp, endTickState, INITIAL, CONFIG.FOOD_PER_WORKER, CONFIG.WOOD_PER_WORKER,
      CONFIG.TOOLS_PER_WORKER, CONFIG.FARM_FOOD_MULT_PER_FARM, CONFIG.TOOLS_SOFTCAP,
      CONFIG.TOOLS_BONUS_PER_TOOL, CONFIG.TOOLS_MIN_BONUS]
  have h4 : phaseMaintenance endTickState = endTickState := by
    norm_num [phaseMaintenance, toolsDecayPerDay, clamp, endTickState, INITIAL,
      CONFIG.TOOLS_DECAY_FLAT, CONFIG.TOOLS_DECAY_PER_POP]
  have h5 : phaseConsumption endTickState = (0, { endTickState with food := 170 }) := by
    norm_num [phaseConsumption, foodConsumptionPerDay, endTickState, INITIAL,
      CONFIG.FOOD_CONSUMPTION_PER_POP, CONFIG.RATION_CONSUMPTION_MULT,
      CONFIG.FEAST_CONSUMPTION_MULT]
  have h6 : phaseStarvation 0 { endTickState with food := 170 } =
      ({ endTickState with food := 170 }, ⟨0, 0⟩) := by
    norm_num [phaseStarvation, endTickState, INITIAL]
  have h7 : phasePressures 0 ⟨0, 0⟩ { endTickState with food := 170 } =
      { endTickState with food := 170, pSubsistence := 5931/100 } := by
    norm_num [phasePressures, clamp, endTickState, INITIAL,
      CONFIG.MOOD_RECOVER_IF_WELL_FED_MULT, CONFIG.P_SUBS_FROM_DEFICIT_MULT,
      CONFIG.P_SUBS_STREAK_MULT, CONFIG.P_DECAY_BASE, CONFIG.P_SEC_FROM_LOW_MOOD_MULT,
      CONFIG.P_SHOCK_FROM_DEATHS, CONFIG.PRESSURE_MIN, CONFIG.PRESSURE_MAX]
  have h8 : phaseAuthorityMoodDrift { endTickState with food := 170, pSubsistence := 5931/100 } =
      { endTickState with food := 170, pSubsistence := 5931/100, mood := 353/5, authority := 0 } := by
    norm_num [phaseAuthorityMoodDrift, clamp, endTickState, INITIAL,
      CONFIG.MOOD_RECOVER_IF_WELL_FED_MULT, CONFIG.MOOD_DRIFT_CAP, CONFIG.MOOD_DRIFT_UP,
      CONFIG.MOOD_TOO_HIGH, CONFIG.MOOD_DRIFT_DOWN_IF_TOO_HIGH,
      CONFIG.AUTH_BLEED_BASE, CONFIG.AUTH_BLEED_PSUBS_MULT, CONFIG.AUTH_BLEED_PSEC_MULT,
      CONFIG.AUTH_BLEED_PEXTR_MULT, CONFIG.AUTH_RECOVER_BASE, CONFIG.AUTH_RECOVER_CAP,
      CONFIG.MOOD_MIN, CONFIG.MOOD_MAX, CONFIG.AUTH_MIN, CONFIG.AUTH_MAX]
  have h9 : phaseDepopulation { endTickState with food := 170, pSubsistence := 5931/100, mood := 353/5, authority := 0 } =
      { endTickState with food := 170, pSubsistence := 5931/100, mood := 353/5, authority := 0 } := by
    norm_num [phaseDepopulation, endTickState, INITIAL,
      CONFIG.MIGRATION_TRIGGER_PSUBS, CONFIG.MIGRATION_TRIGGER_PSEC,
      CONFIG.MIGRATION_TRIGGER_MOOD, CONFIG.MIGRATION_STREAK_START]
  have hef := phaseEvents_fields
    { endTickState with food := 170, pSubsistence := 5931/100, mood := 353/5, authority := 0 }
  have hpopX : (phaseEvents { endTickState with food := 170, pSubsistence := 5931/100, mood := 353/5, authority := 0 }).pop = 30 := by
    rw [hef.2.1]
    norm_num [endTickState, INITIAL]
  have hauthX : (phaseEvents { endTickState with food := 170, pSubsistence := 5931/100, mood := 353/5, authority := 0 }).authority = 0 := by
    rw [hef.2.2.2.2.2.2.1]
  have hend : phaseEndChecks (phaseEvents { endTickState with food := 170, pSubsistence := 5931/100, mood := 353/5, authority := 0 }) =
      endGame .authorityCollapse false
        (phaseEvents { endTickState with food := 170, pSubsistence := 5931/100, mood := 353/5, authority := 0 }) := by
    simp only [phaseEndChecks, hpopX, hauthX, CONFIG.MIGRATION_MIN_POP]
    norm_num
  refine ⟨?_, ?_, ?_, rfl, ?_, ?_⟩
  · rw [hrun]
    simp only [tickPhases, h1, h2, h3, h4, h5, h6, h7, h8, h9, hend]
    simp [endGame]
  · rw [hrun]
    simp only [tickPhases, h1, h2, h3, h4, h5, h6, h7, h8, h9, hend]
    simp [endGame]
  · rw [hrun]
    simp only [tickPhases, h1, h2, h3, h4, h5, h6, h7, h8, h9, hend]
    simp [endGame]
  · rw [hrun]
    simp only [tickPhases, h1, h2, h3, h4, h5, h6, h7, h8, h9, hend]
    simp only [endGame]
    rw [hef.1]
    norm_num [endTickState, INITIAL]
  · simp [tick]

/-! ## Claim C2: determinism of runs -/

/-- C2: the whole engine step (tick phases, player actions, event
resolution) is embedded as a pure function of the settlement state —
faithful to the source, where every draw goes through `makeRng`, which
reads and re-hashes only the `rngState` cursor stored in the state and
consumes no outside entropy.  Hence two independent runs from the same
seed with the same finite decision sequence produce identical state
trajectories, every field (the RNG cursor included) equal step by
step. -/
theorem run_deterministic (seed1 seed2 : ℕ) (ds1 ds2 : List Decision)
    (hseed : seed1 = seed2) (hds : ds1 = ds2) :
    runTrajectory (INITIAL seed1) ds1 = runTrajectory (INITIAL seed2) ds2 ∧
    ∀ i : ℕ, (runTrajectory (INITIAL seed1) ds1).get? i =
      (runTrajectory (INITIAL seed2) ds2).get? i := by
  subst hseed
  subst hds
  exact ⟨rfl, fun i => rfl⟩

/-- Witness for C2: one concrete seed and decision sequence. -/
theorem run_deterministic_witness :
    runTrajectory (INITIAL 1337) [Decision.tickDay, Decision.feastBtn] =
      runTrajectory (INITIAL 1337) [Decision.tickDay, Decision.feastBtn] :=
  (run_deterministic 1337 1337 [Decision.tickDay, Decision.feastBtn]
    [Decision.tickDay, Decision.feastBtn] rfl rfl).1
